import Mathlib

/-!
Verification of the per-tick population update engine of an agent-based
microbial colony simulation (CellModeller user scripts).

The development shallowly embeds the Python modules
`scripts/contact_kill.py`, `scripts/diffusion_kill_QS.py` and the
inhibitor factor of `scripts/diffusion_kill.py`:

* an agent (cell) is a record of its `cellType`, geometry, physiology,
  decay bookkeeping and local chemical readings; Python floats are
  embedded as rationals (`ℚ`);
* the population dictionary is embedded as an association list
  `List (Nat × Cell)` whose list order is the dictionary iteration
  order; per-tick mutation of each agent in place becomes a `List.map`,
  and the deferred `cells.pop` removals become a final `List.filter`;
* module-level configuration constants are embedded by name with the
  values frozen in the scripts; the spatial-hash cell size, fixed to
  `GRID_SIZE = KILL_RADIUS` in the script, is kept as an explicit
  parameter `s` so that statements can quantify over every cell size
  `≥ KILL_RADIUS` (instantiating `s := GRID_SIZE` recovers the script).
-/

/-- Agent record: the per-cell attributes read or written by the update
engines (`cellType`, position, `volume`, `targetVol`, `growthRate`,
`color`, `divideFlag`, `deadCounter`) together with the solver-supplied
chemical readings `signals`/`species` used by the diffusion variants. -/
structure Cell where
  cellType : Nat
  pos : ℚ × ℚ × ℚ
  volume : ℚ
  targetVol : ℚ
  growthRate : ℚ
  color : ℚ × ℚ × ℚ
  divideFlag : Bool
  deadCounter : Nat
  signals : ℚ × ℚ
  species : ℚ × ℚ
deriving DecidableEq

/-- A population: the `cells` dictionary, keyed by cell id.  The list
order is the dictionary iteration order. -/
abbrev Pop := List (Nat × Cell)

namespace AssocList

variable {β : Type}

theorem lookup_eq_some_of_mem {l : List (Nat × β)} {k : Nat} {c : β}
    (hnd : (l.map Prod.fst).Nodup) (h : (k, c) ∈ l) :
    l.lookup k = some c := by
  induction l with
  | nil => simp at h
  | cons a t ih =>
    simp only [List.map_cons, List.nodup_cons] at hnd
    rcases List.mem_cons.mp h with h1 | h1
    · subst h1; simp [List.lookup]
    · have hne : k ≠ a.1 := by
        intro he
        exact hnd.1 (he ▸ (List.mem_map.mpr ⟨(k, c), h1, rfl⟩))
      have hb : (k == a.1) = false := by simp [hne]
      simp only [List.lookup, hb]
      exact ih hnd.2 h1

theorem mem_of_lookup_eq_some {l : List (Nat × β)} {k : Nat} {c : β}
    (h : l.lookup k = some c) : (k, c) ∈ l := by
  induction l with
  | nil => simp [List.lookup] at h
  | cons a t ih =>
    by_cases he : k = a.1
    · have hb : (k == a.1) = true := by simp [he]
      simp only [List.lookup, hb] at h
      obtain rfl : a.2 = c := by injection h
      have : (k, a.2) = a := Prod.ext he rfl
      rw [this]
      exact List.mem_cons_self a t
    · have hb : (k == a.1) = false := by simp [he]
      simp only [List.lookup, hb] at h
      exact List.mem_cons_of_mem _ (ih h)

theorem lookup_eq_none_iff {l : List (Nat × β)} {k : Nat} :
    l.lookup k = none ↔ k ∉ l.map Prod.fst := by
  induction l with
  | nil => simp [List.lookup]
  | cons a t ih =>
    by_cases he : k = a.1
    · have hb : (k == a.1) = true := by simp [he]
      simp [List.lookup, hb, he]
    · have hb : (k == a.1) = false := by simp [he]
      simp [List.lookup, hb, he, ih]

/-- Looking up in a key-preserving value map. -/
theorem lookup_map_snd (g : Nat × β → β) (l : List (Nat × β)) (k : Nat) :
    (l.map fun kc => (kc.1, g kc)).lookup k =
      (l.find? fun kc => kc.1 == k).map g := by
  induction l with
  | nil => simp [List.lookup]
  | cons a t ih =>
    by_cases he : k = a.1
    · have hb : (k == a.1) = true := by simp [he]
      have hb' : (a.1 == k) = true := by simp [he.symm]
      simp [List.lookup, List.find?, hb, hb']
    · have hb : (k == a.1) = false := by simp [he]
      have hb' : (a.1 == k) = false := by simp [Ne.symm he]
      simp [List.lookup, List.find?, hb, hb', ih]

theorem find?_eq_some_of_mem {l : List (Nat × β)} {k : Nat} {c : β}
    (hnd : (l.map Prod.fst).Nodup) (h : (k, c) ∈ l) :
    (l.find? fun kc => kc.1 == k) = some (k, c) := by
  induction l with
  | nil => simp at h
  | cons a t ih =>
    simp only [List.map_cons, List.nodup_cons] at hnd
    rcases List.mem_cons.mp h with h1 | h1
    · subst h1; simp [List.find?]
    · have hne : a.1 ≠ k := by
        intro he
        exact hnd.1 (he ▸ (List.mem_map.mpr ⟨(k, c), h1, rfl⟩))
      simp only [List.find?]
      have : (a.1 == k) = false := by simp [hne]
      rw [this]
      exact ih hnd.2 h1

theorem find?_eq_none_iff {l : List (Nat × β)} {k : Nat} :
    (l.find? fun kc => kc.1 == k) = none ↔ k ∉ l.map Prod.fst := by
  rw [List.find?_eq_none]
  constructor
  · intro h hk
    obtain ⟨⟨k', c⟩, hm, he⟩ := List.mem_map.mp hk
    have h2 := h _ hm
    rw [Bool.not_eq_true, beq_eq_false_iff_ne] at h2
    exact h2 he
  · intro h kc hm
    rw [Bool.not_eq_true, beq_eq_false_iff_ne]
    intro he
    exact h (List.mem_map.mpr ⟨kc, hm, he⟩)

/-- Looking up in a filter by a key predicate. -/
theorem lookup_filter_key (p : Nat → Bool) (l : List (Nat × β)) (k : Nat) :
    (l.filter fun kc => p kc.1).lookup k =
      if p k then l.lookup k else none := by
  induction l with
  | nil => simp [List.lookup]
  | cons a t ih =>
    by_cases he : k = a.1
    · by_cases hp : p a.1
      · have hb : (k == a.1) = true := by simp [he]
        simp only [List.filter, hp, List.lookup, hb, he]
        simp [List.lookup, hb, hp, he]
      · have hpf : p a.1 = false := by simpa using hp
        have hkf : p k = false := he ▸ hpf
        simp only [List.filter, hpf]
        rw [ih, hkf]
        simp
    · have hb : (k == a.1) = false := by simp [he]
      by_cases hp : p a.1
      · have hpt : p a.1 = true := by simpa using hp
        simp only [List.filter, hpt, List.lookup, hb]
        exact ih
      · have hpf : p a.1 = false := by simpa using hp
        simp only [List.filter, hpf]
        rw [ih]
        by_cases hk : p k
        · rw [if_pos hk, if_pos hk]
          simp [List.lookup, hb]
        · simp [hk]

theorem any_perm {α : Type} {l₁ l₂ : List α} (h : l₁.Perm l₂) (p : α → Bool) :
    l₁.any p = l₂.any p := by
  rw [Bool.eq_iff_iff]
  simp only [List.any_eq_true]
  exact ⟨fun ⟨x, hx, hp⟩ => ⟨x, h.mem_iff.mp hx, hp⟩,
         fun ⟨x, hx, hp⟩ => ⟨x, h.mem_iff.mpr hx, hp⟩⟩

theorem contains_perm {l₁ l₂ : List Nat} (h : l₁.Perm l₂)
    (a : Nat) : l₁.contains a = l₂.contains a := by
  rw [Bool.eq_iff_iff]
  simp only [List.contains, List.elem_iff]
  exact h.mem_iff

theorem lookup_perm {l₁ l₂ : List (Nat × β)} (h : l₁.Perm l₂)
    (hnd : (l₁.map Prod.fst).Nodup) (k : Nat) :
    l₁.lookup k = l₂.lookup k := by
  have hnd₂ : (l₂.map Prod.fst).Nodup := (h.map Prod.fst).nodup_iff.mp hnd
  cases hc : l₁.lookup k with
  | none =>
    rw [lookup_eq_none_iff] at hc
    rw [eq_comm, lookup_eq_none_iff]
    exact fun hk => hc ((h.map Prod.fst).mem_iff.mpr hk)
  | some c =>
    have hm := mem_of_lookup_eq_some hc
    rw [eq_comm]
    exact lookup_eq_some_of_mem hnd₂ (h.mem_iff.mp hm)

end AssocList

/-!
## Embedding of `scripts/contact_kill.py`

Two-species growth with PA (cellType 1) contact-killing nearby SA
(cellType 0); dead cells carry cellType 2.
-/
namespace ContactKill

def SA_MU : ℚ := 1.8
def PA_MU : ℚ := 0.6
def DIV_LENGTH_MEAN_PA : ℚ := 3.5
def DIV_LENGTH_MEAN_SA : ℚ := 1.0
def MAX_CELLS : Nat := 10000
def CARRYING_CAPACITY : Nat := MAX_CELLS
def COL_SA : ℚ × ℚ × ℚ := (0, 1, 0)
def COL_PA : ℚ × ℚ × ℚ := (0, 0, 1)
def COL_DEAD : ℚ × ℚ × ℚ := (0.6, 0.6, 0.6)
def EFFECTIVE_RADIUS_SA : ℚ := 1.0
def EFFECTIVE_RADIUS_PA : ℚ := 1.0
def KILL_RADIUS : ℚ := EFFECTIVE_RADIUS_SA + EFFECTIVE_RADIUS_PA
def KILL_RADIUS_SQ : ℚ := KILL_RADIUS * KILL_RADIUS
/-- `GRID_SIZE = KILL_RADIUS` in the script; functions below take the
cell size as a parameter `s` (script value `GRID_SIZE`) so that claims
can quantify over every `s ≥ KILL_RADIUS`. -/
def GRID_SIZE : ℚ := KILL_RADIUS
def CONTACT_KILLING : Bool := true
def DEAD_LIFETIME : Nat := 20

/-- `NEIGHBOR_OFFSETS = [(dxg, dyg) for dxg in (-1,0,1) for dyg in (-1,0,1)]`. -/
def NEIGHBOR_OFFSETS : List (Int × Int) :=
  [(-1, -1), (-1, 0), (-1, 1), (0, -1), (0, 0), (0, 1),
   (1, -1), (1, 0), (1, 1)]

/-- `grid_index(x, y)`: map a position to integer grid coordinates,
`(floor(x / s), floor(y / s))` with `s` the grid cell size. -/
def grid_index (s x y : ℚ) : Int × Int := (⌊x / s⌋, ⌊y / s⌋)

/-- `init(cell)`: defaults assigned at creation; `j` stands for the
`random.uniform` jitter drawn for `targetVol`. -/
def init_cell (j : ℚ) (c : Cell) : Cell :=
  if c.cellType = 0 then
    { c with growthRate := SA_MU, color := COL_SA,
             targetVol := DIV_LENGTH_MEAN_SA + j,
             divideFlag := false, deadCounter := 0 }
  else if c.cellType = 1 then
    { c with growthRate := PA_MU, color := COL_PA,
             targetVol := DIV_LENGTH_MEAN_PA + j,
             divideFlag := false, deadCounter := 0 }
  else
    { c with growthRate := 0, color := COL_DEAD,
             divideFlag := false, deadCounter := 0 }

/-- Crowding factor `max(0.0, 1.0 - n_cells / CARRYING_CAPACITY)`
(guarded by `CARRYING_CAPACITY > 0`). -/
def crowd_factor (n : Nat) : ℚ :=
  if 0 < CARRYING_CAPACITY then
    max 0 (1 - (n : ℚ) / (CARRYING_CAPACITY : ℚ))
  else 1

/-- The per-tick spatial hash `pa_grid`: the content of bin `g` is the
list of `(x, y, cid)` for every PA cell whose `grid_index` is `g`,
in population iteration order. -/
def pa_grid (s : ℚ) (cells : Pop) (g : Int × Int) : List (ℚ × ℚ × Nat) :=
  cells.filterMap fun kc =>
    if kc.2.cellType = 1 ∧ grid_index s kc.2.pos.1 kc.2.pos.2.1 = g then
      some (kc.2.pos.1, kc.2.pos.2.1, kc.1)
    else none

/-- The SA kill scan: over the 9 `NEIGHBOR_OFFSETS` around the SA cell's
own grid bin, search the PA grid for an entry with
`dx*dx + dy*dy <= KILL_RADIUS_SQ` (squared planar distance, `≤`). -/
def sa_killed (s : ℚ) (cells : Pop) (x0 y0 : ℚ) : Bool :=
  let g0 := grid_index s x0 y0
  NEIGHBOR_OFFSETS.any fun off =>
    (pa_grid s cells (g0.1 + off.1, g0.2 + off.2)).any fun p =>
      decide ((x0 - p.1) * (x0 - p.1) + (y0 - p.2.1) * (y0 - p.2.1) ≤
        KILL_RADIUS_SQ)

/-- Per-agent effect of one tick with `CONTACT_KILLING` on (branch 2 of
`update`): PA gets crowding-scaled growth; SA is killed iff the grid
scan finds a PA within the kill radius, else grows; dead cells age;
any other `cellType` is untouched by the loop. -/
def step_cell (s : ℚ) (cells : Pop) (crowd : ℚ) (c : Cell) : Cell :=
  if c.cellType = 1 then
    { c with growthRate := PA_MU * crowd,
             divideFlag := decide (c.targetVol < c.volume),
             deadCounter := 0 }
  else if c.cellType = 0 then
    if sa_killed s cells c.pos.1 c.pos.2.1 then
      { c with cellType := 2, growthRate := 0, divideFlag := false,
               color := COL_DEAD, deadCounter := 0 }
    else
      { c with growthRate := SA_MU * crowd,
               divideFlag := decide (c.targetVol < c.volume),
               deadCounter := 0 }
  else if c.cellType = 2 then
    { c with growthRate := 0, divideFlag := false, color := COL_DEAD,
             deadCounter := c.deadCounter + 1 }
  else c

/-- Per-agent effect of one tick with `CONTACT_KILLING` off (branch 1 of
`update`): same as branch 2 but with no kill scan for SA. -/
def step_cell_nokill (crowd : ℚ) (c : Cell) : Cell :=
  if c.cellType = 2 then
    { c with growthRate := 0, divideFlag := false, color := COL_DEAD,
             deadCounter := c.deadCounter + 1 }
  else if c.cellType = 0 then
    { c with growthRate := SA_MU * crowd,
             divideFlag := decide (c.targetVol < c.volume),
             deadCounter := 0 }
  else if c.cellType = 1 then
    { c with growthRate := PA_MU * crowd,
             divideFlag := decide (c.targetVol < c.volume),
             deadCounter := 0 }
  else c

/-- `cells_to_remove`: ids of cells that were already dead at the start
of the tick and whose incremented `deadCounter` reaches
`DEAD_LIFETIME` this tick. -/
def remove_list (cells : Pop) : List Nat :=
  cells.filterMap fun kc =>
    if kc.2.cellType = 2 ∧ DEAD_LIFETIME ≤ kc.2.deadCounter + 1 then
      some kc.1
    else none

/-- One tick of `update(cells)` with contact killing on: compute the
crowding factor from the pre-tick population size, apply `step_cell`
(which reads the pre-tick PA grid) to every agent, then pop the
scheduled removals after the full scan. -/
def update_kill (s : ℚ) (cells : Pop) : Pop :=
  let crowd := crowd_factor cells.length
  let stepped := cells.map fun kc => (kc.1, step_cell s cells crowd kc.2)
  let toRemove := remove_list cells
  stepped.filter fun kc => !(toRemove.contains kc.1)

/-- One tick of `update(cells)` with contact killing off (branch 1). -/
def update_nokill (cells : Pop) : Pop :=
  let crowd := crowd_factor cells.length
  let stepped := cells.map fun kc => (kc.1, step_cell_nokill crowd kc.2)
  let toRemove := remove_list cells
  stepped.filter fun kc => !(toRemove.contains kc.1)

/-- `update(cells)`: dispatch on the `CONTACT_KILLING` toggle. -/
def update (s : ℚ) (cells : Pop) : Pop :=
  if CONTACT_KILLING then update_kill s cells else update_nokill cells

/-- `divide(parent, d1, d2)`: daughters keep the parent's species, get
the species base growth rate and color, an independently redrawn
`targetVol` (jitters `j1`, `j2` stand for the two `random.uniform`
draws), and reset flags.  No branch handles a dead parent. -/
def divide (parent d1 d2 : Cell) (j1 j2 : ℚ) : Cell × Cell :=
  let ptype := parent.cellType
  let d1 := { d1 with cellType := ptype }
  let d2 := { d2 with cellType := ptype }
  let d1 :=
    if ptype = 0 then
      { d1 with color := COL_SA, growthRate := SA_MU,
                targetVol := DIV_LENGTH_MEAN_SA + j1 }
    else if ptype = 1 then
      { d1 with color := COL_PA, growthRate := PA_MU,
                targetVol := DIV_LENGTH_MEAN_PA + j1 }
    else d1
  let d2 :=
    if ptype = 0 then
      { d2 with color := COL_SA, growthRate := SA_MU,
                targetVol := DIV_LENGTH_MEAN_SA + j2 }
    else if ptype = 1 then
      { d2 with color := COL_PA, growthRate := PA_MU,
                targetVol := DIV_LENGTH_MEAN_PA + j2 }
    else d2
  ({ d1 with divideFlag := false, deadCounter := 0 },
   { d2 with divideFlag := false, deadCounter := 0 })

end ContactKill

namespace ContactKill

/-- Membership in a spatial-hash bin. -/
theorem mem_pa_grid_iff {s : ℚ} {cells : Pop} {g : Int × Int}
    {p : ℚ × ℚ × Nat} :
    p ∈ pa_grid s cells g ↔
      ∃ kc ∈ cells, kc.2.cellType = 1 ∧
        grid_index s kc.2.pos.1 kc.2.pos.2.1 = g ∧
        p = (kc.2.pos.1, kc.2.pos.2.1, kc.1) := by
  simp only [pa_grid, List.mem_filterMap]
  constructor
  · rintro ⟨kc, hm, hs⟩
    by_cases hc : kc.2.cellType = 1 ∧ grid_index s kc.2.pos.1 kc.2.pos.2.1 = g
    · rw [if_pos hc] at hs
      exact ⟨kc, hm, hc.1, hc.2, (Option.some_inj.mp hs).symm⟩
    · rw [if_neg hc] at hs; exact absurd hs (by simp)
  · rintro ⟨kc, hm, h1, h2, h3⟩
    exact ⟨kc, hm, by rw [if_pos ⟨h1, h2⟩, h3]⟩

/-- If two abscissas are at most `s` apart, their grid coordinates are
at most one bin apart. -/
theorem floor_dist_le_one {s x y : ℚ} (hs : 0 < s) (h : |x - y| ≤ s) :
    -1 ≤ ⌊y / s⌋ - ⌊x / s⌋ ∧ ⌊y / s⌋ - ⌊x / s⌋ ≤ 1 := by
  rw [abs_le] at h
  have hxy : y / s ≤ x / s + 1 := by
    have h1 : y ≤ x + s := by linarith
    have h2 : y / s ≤ (x + s) / s := (div_le_div_iff_of_pos_right hs).mpr h1
    rw [add_div, div_self (ne_of_gt hs)] at h2
    exact h2
  have hyx : x / s ≤ y / s + 1 := by
    have h1 : x ≤ y + s := by linarith
    have h2 : x / s ≤ (y + s) / s := (div_le_div_iff_of_pos_right hs).mpr h1
    rw [add_div, div_self (ne_of_gt hs)] at h2
    exact h2
  constructor
  · have := Int.floor_le_floor hyx
    rw [Int.floor_add_one] at this
    omega
  · have := Int.floor_le_floor hxy
    rw [Int.floor_add_one] at this
    omega

theorem mem_neighbor_offsets {a b : Int}
    (ha : -1 ≤ a ∧ a ≤ 1) (hb : -1 ≤ b ∧ b ≤ 1) :
    (a, b) ∈ NEIGHBOR_OFFSETS := by
  simp only [NEIGHBOR_OFFSETS, List.mem_cons, List.mem_singleton,
    Prod.mk.injEq]
  omega

/-- The kill scan succeeds exactly when some PA cell of the population
lies within the kill radius in the x-y plane — provided the hash cell
size is at least the kill radius. -/
theorem sa_killed_iff {s : ℚ} (hs : KILL_RADIUS ≤ s) (cells : Pop)
    (x0 y0 : ℚ) :
    sa_killed s cells x0 y0 = true ↔
      ∃ kc ∈ cells, kc.2.cellType = 1 ∧
        (x0 - kc.2.pos.1) * (x0 - kc.2.pos.1) +
          (y0 - kc.2.pos.2.1) * (y0 - kc.2.pos.2.1) ≤ KILL_RADIUS_SQ := by
  have hr : (0 : ℚ) < KILL_RADIUS := by norm_num [KILL_RADIUS,
    EFFECTIVE_RADIUS_SA, EFFECTIVE_RADIUS_PA]
  have hs0 : (0 : ℚ) < s := lt_of_lt_of_le hr hs
  constructor
  · intro h
    simp only [sa_killed, List.any_eq_true, decide_eq_true_eq] at h
    obtain ⟨off, _, p, hp, hd⟩ := h
    obtain ⟨kc, hm, h1, _, h3⟩ := mem_pa_grid_iff.mp hp
    exact ⟨kc, hm, h1, by rw [h3] at hd; exact hd⟩
  · rintro ⟨kc, hm, h1, hd⟩
    simp only [sa_killed, List.any_eq_true, decide_eq_true_eq]
    set xp := kc.2.pos.1 with hxp
    set yp := kc.2.pos.2.1 with hyp
    have hsq : KILL_RADIUS_SQ = KILL_RADIUS * KILL_RADIUS := rfl
    have hdx2 : (x0 - xp) * (x0 - xp) ≤ KILL_RADIUS * KILL_RADIUS := by
      nlinarith [mul_self_nonneg (y0 - yp)]
    have hdy2 : (y0 - yp) * (y0 - yp) ≤ KILL_RADIUS * KILL_RADIUS := by
      nlinarith [mul_self_nonneg (x0 - xp)]
    have hdx : |x0 - xp| ≤ s := by
      refine le_trans ?_ hs
      rw [abs_le]
      constructor <;> nlinarith
    have hdy : |y0 - yp| ≤ s := by
      refine le_trans ?_ hs
      rw [abs_le]
      constructor <;> nlinarith
    have hfx := floor_dist_le_one hs0 hdx
    have hfy := floor_dist_le_one hs0 hdy
    refine ⟨(⌊xp / s⌋ - ⌊x0 / s⌋, ⌊yp / s⌋ - ⌊y0 / s⌋),
      mem_neighbor_offsets hfx hfy, (xp, yp, kc.1), ?_, hd⟩
    refine mem_pa_grid_iff.mpr ⟨kc, hm, h1, ?_, rfl⟩
    simp only [grid_index, Prod.mk.injEq, ← hxp, ← hyp]
    omega

end ContactKill

namespace ContactKill

theorem mem_remove_list_iff {cells : Pop} {k : Nat} {c : Cell}
    (hnd : (cells.map Prod.fst).Nodup) (hmem : (k, c) ∈ cells) :
    (remove_list cells).contains k = true ↔
      c.cellType = 2 ∧ DEAD_LIFETIME ≤ c.deadCounter + 1 := by
  rw [List.contains, List.elem_iff]
  simp only [remove_list, List.mem_filterMap]
  constructor
  · rintro ⟨kc, hm, hif⟩
    by_cases hc : kc.2.cellType = 2 ∧ DEAD_LIFETIME ≤ kc.2.deadCounter + 1
    · rw [if_pos hc] at hif
      obtain rfl : kc.1 = k := Option.some_inj.mp hif
      have h1 := AssocList.lookup_eq_some_of_mem hnd hmem
      have h2 := AssocList.lookup_eq_some_of_mem hnd
        (show (kc.1, kc.2) ∈ cells from hm)
      rw [h1] at h2
      obtain rfl : c = kc.2 := Option.some_inj.mp h2
      exact hc
    · rw [if_neg hc] at hif; exact absurd hif (by simp)
  · intro hc
    exact ⟨(k, c), hmem, by rw [if_pos hc]⟩

theorem not_mem_remove_list {cells : Pop} {k : Nat}
    (h : k ∉ cells.map Prod.fst) :
    (remove_list cells).contains k = false := by
  rw [← Bool.not_eq_true, List.contains, List.elem_iff]
  simp only [remove_list, List.mem_filterMap]
  rintro ⟨kc, hm, hif⟩
  by_cases hc : kc.2.cellType = 2 ∧ DEAD_LIFETIME ≤ kc.2.deadCounter + 1
  · rw [if_pos hc] at hif
    obtain rfl : kc.1 = k := Option.some_inj.mp hif
    exact h (List.mem_map.mpr ⟨kc, hm, rfl⟩)
  · rw [if_neg hc] at hif; exact absurd hif (by simp)

/-- What one tick does at a given live key. -/
theorem lookup_update_kill {s : ℚ} {cells : Pop} {k : Nat} {c : Cell}
    (hnd : (cells.map Prod.fst).Nodup) (hmem : (k, c) ∈ cells) :
    (update_kill s cells).lookup k =
      if c.cellType = 2 ∧ DEAD_LIFETIME ≤ c.deadCounter + 1 then none
      else some (step_cell s cells (crowd_factor cells.length) c) := by
  unfold update_kill
  rw [AssocList.lookup_filter_key
    (fun k => !((remove_list cells).contains k)),
    AssocList.lookup_map_snd (fun kc => step_cell s cells
      (crowd_factor cells.length) kc.2),
    AssocList.find?_eq_some_of_mem hnd hmem]
  by_cases hc : c.cellType = 2 ∧ DEAD_LIFETIME ≤ c.deadCounter + 1
  · rw [if_pos hc, (mem_remove_list_iff hnd hmem).mpr hc]
    simp
  · rw [if_neg hc]
    have : (remove_list cells).contains k = false := by
      rw [← Bool.not_eq_true]
      intro ht
      exact hc ((mem_remove_list_iff hnd hmem).mp ht)
    rw [this]
    simp

/-- A key absent before the tick is absent after it. -/
theorem lookup_update_kill_none {s : ℚ} {cells : Pop} {k : Nat}
    (h : k ∉ cells.map Prod.fst) :
    (update_kill s cells).lookup k = none := by
  unfold update_kill
  rw [AssocList.lookup_filter_key
    (fun k => !((remove_list cells).contains k)),
    AssocList.lookup_map_snd (fun kc => step_cell s cells
      (crowd_factor cells.length) kc.2),
    AssocList.find?_eq_none_iff.mpr h]
  simp

theorem update_kill_keys_sublist (s : ℚ) (cells : Pop) :
    ((update_kill s cells).map Prod.fst).Sublist (cells.map Prod.fst) := by
  unfold update_kill
  refine List.Sublist.trans
    (List.Sublist.map Prod.fst (List.filter_sublist _)) ?_
  rw [List.map_map]
  exact List.Sublist.refl _

theorem update_kill_keys_nodup {s : ℚ} {cells : Pop}
    (hnd : (cells.map Prod.fst).Nodup) :
    ((update_kill s cells).map Prod.fst).Nodup :=
  List.Nodup.sublist (update_kill_keys_sublist s cells) hnd

theorem update_eq_update_kill (s : ℚ) (cells : Pop) :
    update s cells = update_kill s cells := rfl

end ContactKill

namespace ContactKill

/-- **C1**: With contact killing enabled, one update tick transitions a
susceptible (SA) agent to Dead if and only if some hazard (PA) agent lies
at squared planar distance `≤ KILL_RADIUS_SQ` (comparison is `≤` on
squared distances, so the boundary kills), for every grid cell size
`s ≥ KILL_RADIUS`; the 3×3 neighborhood scan finds every hazard within
the kill radius. -/
theorem C1_contact_kill (s : ℚ) (hs : KILL_RADIUS ≤ s) (cells : Pop)
    (hnd : (cells.map Prod.fst).Nodup) (k : Nat) (c : Cell)
    (hmem : (k, c) ∈ cells) (hsa : c.cellType = 0) :
    ∃ c', (update s cells).lookup k = some c' ∧
      (c'.cellType = 2 ↔
        ∃ kc ∈ cells, kc.2.cellType = 1 ∧
          (c.pos.1 - kc.2.pos.1) * (c.pos.1 - kc.2.pos.1) +
            (c.pos.2.1 - kc.2.pos.2.1) * (c.pos.2.1 - kc.2.pos.2.1) ≤
              KILL_RADIUS_SQ) := by
  rw [update_eq_update_kill, lookup_update_kill hnd hmem,
    if_neg (by rw [hsa]; simp)]
  refine ⟨_, rfl, ?_⟩
  simp only [step_cell]
  rw [if_neg (show ¬c.cellType = 1 by rw [hsa]; decide), if_pos hsa]
  by_cases hk : sa_killed s cells c.pos.1 c.pos.2.1 = true
  · rw [if_pos hk]
    exact ⟨fun _ => (sa_killed_iff hs cells _ _).mp hk, fun _ => rfl⟩
  · rw [if_neg hk]
    constructor
    · intro h2
      have h2' : c.cellType = 2 := h2
      rw [hsa] at h2'
      exact absurd h2' (by decide)
    · intro hex; exact absurd ((sa_killed_iff hs cells _ _).mpr hex) hk

/-- Witness population: one SA agent exactly at the kill boundary
(planar distance 2 = KILL_RADIUS) from one PA agent, with differing
z coordinates. -/
def wSA : Cell :=
  { cellType := 0, pos := (2, 0, 5), volume := 1, targetVol := 1,
    growthRate := 1.8, color := (0, 1, 0), divideFlag := false,
    deadCounter := 0, signals := (0, 0), species := (0, 0) }

def wPA : Cell :=
  { cellType := 1, pos := (0, 0, 0), volume := 1, targetVol := 1,
    growthRate := 0.6, color := (0, 0, 1), divideFlag := false,
    deadCounter := 0, signals := (0, 0), species := (0, 0) }

def wCells : Pop := [(0, wSA), (1, wPA)]

theorem C1_contact_kill_witness :
    ∃ c', (update 2 wCells).lookup 0 = some c' ∧
      (c'.cellType = 2 ↔
        ∃ kc ∈ wCells, kc.2.cellType = 1 ∧
          (wSA.pos.1 - kc.2.pos.1) * (wSA.pos.1 - kc.2.pos.1) +
            (wSA.pos.2.1 - kc.2.pos.2.1) * (wSA.pos.2.1 - kc.2.pos.2.1) ≤
              KILL_RADIUS_SQ) :=
  C1_contact_kill 2
    (by norm_num [KILL_RADIUS, EFFECTIVE_RADIUS_SA, EFFECTIVE_RADIUS_PA])
    wCells (by simp [wCells]) 0 wSA (by simp [wCells]) rfl

/-- Replace the z coordinate of every agent (by key) with an arbitrary
value, leaving x, y and all other fields unchanged. -/
def set_z (f : Nat → ℚ) (cells : Pop) : Pop :=
  cells.map fun kc =>
    (kc.1, { kc.2 with pos := (kc.2.pos.1, kc.2.pos.2.1, f kc.1) })

theorem pa_grid_set_z (s : ℚ) (f : Nat → ℚ) (cells : Pop) (g : Int × Int) :
    pa_grid s (set_z f cells) g = pa_grid s cells g := by
  unfold pa_grid set_z
  rw [List.filterMap_map]
  rfl

theorem sa_killed_set_z (s : ℚ) (f : Nat → ℚ) (cells : Pop) (x0 y0 : ℚ) :
    sa_killed s (set_z f cells) x0 y0 = sa_killed s cells x0 y0 := by
  unfold sa_killed
  simp only [pa_grid_set_z]

/-- **C10**: The contact-kill check uses only the x and y coordinates:
replacing the z coordinate of the susceptible agent and of every agent
in the population by arbitrary values, the agent is still killed exactly
iff some hazard agent lies within the kill radius in the x-y plane. -/
theorem C10_z_ignored (s : ℚ) (hs : KILL_RADIUS ≤ s) (cells : Pop)
    (crowd : ℚ) (c : Cell) (hsa : c.cellType = 0) (f : Nat → ℚ) (z' : ℚ) :
    ((step_cell s (set_z f cells) crowd
        { c with pos := (c.pos.1, c.pos.2.1, z') }).cellType = 2 ↔
      ∃ kc ∈ cells, kc.2.cellType = 1 ∧
        (c.pos.1 - kc.2.pos.1) * (c.pos.1 - kc.2.pos.1) +
          (c.pos.2.1 - kc.2.pos.2.1) * (c.pos.2.1 - kc.2.pos.2.1) ≤
            KILL_RADIUS_SQ) := by
  simp only [step_cell]
  rw [if_neg (show ¬({ c with pos := (c.pos.1, c.pos.2.1, z') } : Cell).cellType
        = 1 by rw [show ({ c with pos := (c.pos.1, c.pos.2.1, z') } : Cell).cellType
        = c.cellType from rfl, hsa]; decide),
    if_pos (show ({ c with pos := (c.pos.1, c.pos.2.1, z') } : Cell).cellType
        = 0 from hsa)]
  have hz : sa_killed s (set_z f cells)
      ({ c with pos := (c.pos.1, c.pos.2.1, z') } : Cell).pos.1
      ({ c with pos := (c.pos.1, c.pos.2.1, z') } : Cell).pos.2.1 =
      sa_killed s cells c.pos.1 c.pos.2.1 := sa_killed_set_z s f cells _ _
  by_cases hk : sa_killed s cells c.pos.1 c.pos.2.1 = true
  · rw [if_pos (hz.trans hk)]
    exact ⟨fun _ => (sa_killed_iff hs cells _ _).mp hk, fun _ => rfl⟩
  · rw [if_neg (fun hc => hk (hz ▸ hc))]
    constructor
    · intro h2
      have h2' : c.cellType = 2 := h2
      rw [hsa] at h2'
      exact absurd h2' (by decide)
    · intro hex; exact absurd ((sa_killed_iff hs cells _ _).mpr hex) hk

theorem C10_z_ignored_witness :
    ((step_cell 2 (set_z (fun k => (k : ℚ) - 7) wCells) 1
        { wSA with pos := (wSA.pos.1, wSA.pos.2.1, 100) }).cellType = 2 ↔
      ∃ kc ∈ wCells, kc.2.cellType = 1 ∧
        (wSA.pos.1 - kc.2.pos.1) * (wSA.pos.1 - kc.2.pos.1) +
          (wSA.pos.2.1 - kc.2.pos.2.1) * (wSA.pos.2.1 - kc.2.pos.2.1) ≤
            KILL_RADIUS_SQ) :=
  C10_z_ignored 2
    (by norm_num [KILL_RADIUS, EFFECTIVE_RADIUS_SA, EFFECTIVE_RADIUS_PA])
    wCells 1 wSA rfl (fun k => (k : ℚ) - 7) 100

end ContactKill

namespace ContactKill

theorem step_cell_dead {s : ℚ} {cells : Pop} {crowd : ℚ} {c : Cell}
    (hdead : c.cellType = 2) :
    step_cell s cells crowd c =
      { c with growthRate := 0, divideFlag := false, color := COL_DEAD,
               deadCounter := c.deadCounter + 1 } := by
  simp only [step_cell]
  rw [if_neg (show ¬c.cellType = 1 by rw [hdead]; decide),
    if_neg (show ¬c.cellType = 0 by rw [hdead]; decide), if_pos hdead]

theorem update_iterate_keys_nodup {s : ℚ} {cells : Pop}
    (hnd : (cells.map Prod.fst).Nodup) (n : Nat) :
    (((update s)^[n] cells).map Prod.fst).Nodup := by
  induction n generalizing cells with
  | zero => exact hnd
  | succ m ih =>
    rw [Function.iterate_succ_apply]
    exact ih (update_eq_update_kill s cells ▸ update_kill_keys_nodup hnd)

theorem lookup_update_iterate_none {s : ℚ} {cells : Pop} {k : Nat}
    (h : cells.lookup k = none) (n : Nat) :
    ((update s)^[n] cells).lookup k = none := by
  induction n generalizing cells with
  | zero => exact h
  | succ m ih =>
    rw [Function.iterate_succ_apply]
    refine ih ?_
    rw [update_eq_update_kill]
    exact lookup_update_kill_none (AssocList.lookup_eq_none_iff.mp h)

/-- Trajectory of a dead agent: while the counter stays below the
lifetime it is present, aging by exactly one per tick. -/
theorem dead_trajectory (s : ℚ) :
    ∀ (n : Nat) (cells : Pop) (k : Nat) (c : Cell),
      (cells.map Prod.fst).Nodup → (k, c) ∈ cells → c.cellType = 2 →
      c.deadCounter + n < DEAD_LIFETIME →
      ∃ c', ((update s)^[n] cells).lookup k = some c' ∧
        c'.cellType = 2 ∧ c'.deadCounter = c.deadCounter + n ∧
        (n = 0 → c' = c) ∧
        (1 ≤ n → c'.growthRate = 0 ∧ c'.divideFlag = false) := by
  intro n
  induction n with
  | zero =>
    intro cells k c hnd hmem hdead _
    exact ⟨c, AssocList.lookup_eq_some_of_mem hnd hmem, hdead, rfl,
      fun _ => rfl, fun h => absurd h (by decide)⟩
  | succ m ih =>
    intro cells k c hnd hmem hdead hlt
    have hnotrm : ¬(c.cellType = 2 ∧ DEAD_LIFETIME ≤ c.deadCounter + 1) := by
      rintro ⟨-, hge⟩
      omega
    have h1 : (update s cells).lookup k =
        some (step_cell s cells (crowd_factor cells.length) c) := by
      rw [update_eq_update_kill, lookup_update_kill hnd hmem, if_neg hnotrm]
    set c1 := step_cell s cells (crowd_factor cells.length) c with hc1
    have hc1eq : c1 =
        { c with growthRate := 0, divideFlag := false, color := COL_DEAD,
                 deadCounter := c.deadCounter + 1 } :=
      hc1 ▸ step_cell_dead hdead
    have hmem1 : (k, c1) ∈ update s cells :=
      AssocList.mem_of_lookup_eq_some h1
    have hnd1 : ((update s cells).map Prod.fst).Nodup :=
      update_eq_update_kill s cells ▸ update_kill_keys_nodup hnd
    have hdead1 : c1.cellType = 2 := by rw [hc1eq]; exact hdead
    have hcnt1 : c1.deadCounter = c.deadCounter + 1 := by rw [hc1eq]
    obtain ⟨c', hl', hT', hC', h0', h1'⟩ :=
      ih (update s cells) k c1 hnd1 hmem1 hdead1 (by omega)
    refine ⟨c', ?_, hT', by omega, fun h => absurd h (by omega), fun _ => ?_⟩
    · rw [Function.iterate_succ_apply]
      exact hl'
    · rcases Nat.eq_zero_or_pos m with hm | hm
      · subst hm
        rw [h0' rfl, hc1eq]
        exact ⟨rfl, rfl⟩
      · exact h1' hm

/-- **C2**: A dead agent's tick sets `growthRate = 0`,
`divideFlag = false`, recolors it, increments `deadCounter` by exactly 1
and touches nothing else; starting from a fresh dead agent
(counter 0), with lifetime 20 the agent is still present with counter
`n` after `n ≤ 19` ticks, and is removed on the 20th tick, never to
return. -/
theorem C2_dead_lifecycle :
    DEAD_LIFETIME = 20 ∧
    (∀ (s : ℚ) (cells : Pop) (crowd : ℚ) (c : Cell), c.cellType = 2 →
      step_cell s cells crowd c =
        { c with growthRate := 0, divideFlag := false, color := COL_DEAD,
                 deadCounter := c.deadCounter + 1 }) ∧
    (∀ (s : ℚ) (cells : Pop) (k : Nat) (c : Cell),
      (cells.map Prod.fst).Nodup → (k, c) ∈ cells →
      c.cellType = 2 → c.deadCounter = 0 →
      (∀ n : Nat, n ≤ 19 →
        ∃ c', ((update s)^[n] cells).lookup k = some c' ∧
          c'.cellType = 2 ∧ c'.deadCounter = n ∧
          (1 ≤ n → c'.growthRate = 0 ∧ c'.divideFlag = false)) ∧
      (∀ n : Nat, 20 ≤ n → ((update s)^[n] cells).lookup k = none)) := by
  refine ⟨rfl, fun s cells crowd c h => step_cell_dead h, ?_⟩
  intro s cells k c hnd hmem hdead hcnt
  constructor
  · intro n hn
    obtain ⟨c', hl, hT, hC, -, hG⟩ :=
      dead_trajectory s n cells k c hnd hmem hdead
        (by rw [hcnt]; simp [DEAD_LIFETIME]; omega)
    exact ⟨c', hl, hT, by omega, hG⟩
  · have h20 : ((update s)^[20] cells).lookup k = none := by
      obtain ⟨c', hl, hT, hC, -, -⟩ :=
        dead_trajectory s 19 cells k c hnd hmem hdead
          (by rw [hcnt]; simp [DEAD_LIFETIME])
      have hnd19 := @update_iterate_keys_nodup s cells hnd 19
      have hmem19 := AssocList.mem_of_lookup_eq_some hl
      have hrm : c'.cellType = 2 ∧ DEAD_LIFETIME ≤ c'.deadCounter + 1 := by
        refine ⟨hT, ?_⟩
        rw [hC, hcnt]
        simp [DEAD_LIFETIME]
      have : (update s ((update s)^[19] cells)).lookup k = none := by
        rw [update_eq_update_kill, lookup_update_kill hnd19 hmem19,
          if_pos hrm]
      rw [show (20 : Nat) = 19 + 1 by rfl, Function.iterate_add_apply,
        Function.iterate_one]
      exact this
    intro n hn
    have : n = (n - 20) + 20 := by omega
    rw [this, Function.iterate_add_apply]
    exact lookup_update_iterate_none h20 (n - 20)

/-- Witness dead agent for C2. -/
def wDead : Cell :=
  { cellType := 2, pos := (0, 0, 0), volume := 1, targetVol := 1,
    growthRate := 0, color := (0.6, 0.6, 0.6), divideFlag := false,
    deadCounter := 0, signals := (0, 0), species := (0, 0) }

theorem C2_dead_lifecycle_witness :
    (∃ c', ((update 2)^[19] [(0, wDead)]).lookup 0 = some c' ∧
      c'.cellType = 2 ∧ c'.deadCounter = 19 ∧
      (1 ≤ 19 → c'.growthRate = 0 ∧ c'.divideFlag = false)) ∧
    ((update 2)^[20] [(0, wDead)]).lookup 0 = none :=
  ⟨(C2_dead_lifecycle.2.2 2 [(0, wDead)] 0 wDead (by simp)
      (by simp) rfl rfl).1 19 (by norm_num),
   (C2_dead_lifecycle.2.2 2 [(0, wDead)] 0 wDead (by simp)
      (by simp) rfl rfl).2 20 (by norm_num)⟩

end ContactKill

/-!
## Embedding of the inhibitor factor of `scripts/diffusion_kill.py`

In this (non-quorum-sensing) variant the inhibitor slowdown is gated
only by the `INHIBITOR_ON` toggle, not by any quorum-sensing flag.
-/
namespace DiffusionKill

def INHIBITOR_ON : Bool := true
def INHIB_EFFECT_STRENGTH : ℚ := 1

/-- `inhibitor_growth_factor(inh_conc) = max(0, 1 - alpha*inh_conc)`
whenever `INHIBITOR_ON`, with no quorum-sensing gate. -/
def inhibitor_growth_factor (inh_conc : ℚ) : ℚ :=
  if !INHIBITOR_ON then 1
  else max 0 (1 - INHIB_EFFECT_STRENGTH * inh_conc)

end DiffusionKill

/-!
## Embedding of `scripts/diffusion_kill_QS.py`

Diffusive toxin killing with quorum-sensing-gated production.
Cell types: SA 0, PA toxin-active 1, dead 2, PA silent 3,
PA inhibitor-only 4.
-/
namespace DiffusionKillQS

def SA_TYPE : Nat := 0
def PA_TYPE_ACTIVE : Nat := 1
def DEAD_TYPE : Nat := 2
def PA_TYPE_SILENT : Nat := 3
def PA_TYPE_INHIB_ONLY : Nat := 4

def SA_MU : ℚ := 1.8
def PA_MU : ℚ := 0.6
def DIV_LENGTH_MEAN_PA : ℚ := 3.5
def DIV_LENGTH_MEAN_SA : ℚ := 1.0
def MAX_CELLS : Nat := 2500
def CARRYING_CAPACITY : Nat := MAX_CELLS * 5
def COL_SA : ℚ × ℚ × ℚ := (0, 1, 0)
def COL_PA_SILENT : ℚ × ℚ × ℚ := (0, 0, 1)
def COL_PA_INHIB_ONLY : ℚ × ℚ × ℚ := (1, 0.5, 0)
def COL_PA_ACTIVE : ℚ × ℚ × ℚ := (1, 0, 0)
def COL_DEAD : ℚ × ℚ × ℚ := (0.6, 0.6, 0.6)
def DEAD_LIFETIME : Nat := 20
def TOXIN_KILL_THRESHOLD : ℚ := 1.0
def DIFFUSIVE_KILLING : Bool := true
def INHIBITOR_ON : Bool := true
def INHIB_EFFECT_STRENGTH : ℚ := 0.5
def INHIB_GROWTH_COST : ℚ := 0.2
def TOXIN_GROWTH_COST : ℚ := 0.3
def QS_ON_TOXIN : Bool := true
def QS_POP_THRESHOLD_TOXIN : Nat := 150
def QS_ON_INHIB : Bool := true
def QS_POP_THRESHOLD_INHIB : Nat := 30
def COLOR_BY_TOXIN : Bool := false
def COLOR_BY_INHIBITOR : Bool := true

/-- The process-wide quorum-sensing flags `QS_ACTIVE_TOXIN` and
`QS_ACTIVE_INHIB`, both initialized `false` and mutated only by
`update`. -/
structure QS where
  toxin : Bool
  inhib : Bool
deriving DecidableEq

/-- `inhibitor_growth_factor(inh_conc)`: linear inhibition
`max(0, 1 - alpha*inh_conc)`, active only when `INHIBITOR_ON` and the
inhibitor quorum-sensing flag is set (the script reads the global
`QS_ACTIVE_INHIB`, passed here as `qsInhib`). -/
def inhibitor_growth_factor (qsInhib : Bool) (inh_conc : ℚ) : ℚ :=
  if !INHIBITOR_ON || !qsInhib then 1
  else max 0 (1 - INHIB_EFFECT_STRENGTH * inh_conc)

/-- `pa_growth_factor(ctype)`: metabolic cost of production. -/
def pa_growth_factor (ctype : Nat) : ℚ :=
  if ctype = PA_TYPE_SILENT then 1
  else if ctype = PA_TYPE_INHIB_ONLY then max 0 (1 - INHIB_GROWTH_COST)
  else if ctype = PA_TYPE_ACTIVE then
    max 0 (1 - INHIB_GROWTH_COST - TOXIN_GROWTH_COST)
  else 1

/-- `cell_color(cell)`: display color from state and signal readings
(reads the globals `QS_ACTIVE_INHIB`/`QS_ACTIVE_TOXIN`, passed as
`qs`). -/
def cell_color (qs : QS) (c : Cell) : ℚ × ℚ × ℚ :=
  if c.cellType = DEAD_TYPE then COL_DEAD
  else
    let base :=
      if c.cellType = SA_TYPE then COL_SA
      else if c.cellType = PA_TYPE_ACTIVE then COL_PA_ACTIVE
      else if c.cellType = PA_TYPE_INHIB_ONLY then COL_PA_INHIB_ONLY
      else if c.cellType = PA_TYPE_SILENT then COL_PA_SILENT
      else (0.5, 0.5, 0.5)
    if COLOR_BY_INHIBITOR && decide (c.cellType = SA_TYPE) && qs.inhib then
      let inh := if INHIBITOR_ON then c.signals.2 else 0
      let f := inhibitor_growth_factor qs.inhib inh
      (1 - f, 1, 0)
    else if COLOR_BY_TOXIN && DIFFUSIVE_KILLING && qs.toxin then
      let tox := c.signals.1
      let norm :=
        if 0 < TOXIN_KILL_THRESHOLD then min (tox / TOXIN_KILL_THRESHOLD) 1
        else 0
      (base.1 * (1 - norm) + norm, base.2.1 * (1 - norm) + norm,
        base.2.2 * (1 - norm) + norm)
    else base

/-- `n_pa`: count of all producer sub-states combined. -/
def n_pa_count (cells : Pop) : Nat :=
  List.countP (fun kc => decide (kc.2.cellType = PA_TYPE_ACTIVE ∨
    kc.2.cellType = PA_TYPE_SILENT ∨
    kc.2.cellType = PA_TYPE_INHIB_ONLY)) cells

def crowd_factor (n : Nat) : ℚ :=
  if 0 < CARRYING_CAPACITY then
    max 0 (1 - (n : ℚ) / (CARRYING_CAPACITY : ℚ))
  else 1

/-- Inhibitor quorum promotion: silent PA become inhibitor-only. -/
def promote_inhib (c : Cell) : Cell :=
  if c.cellType = PA_TYPE_SILENT then
    { c with cellType := PA_TYPE_INHIB_ONLY }
  else c

/-- Toxin quorum promotion: silent and inhibitor-only PA become fully
toxin-active. -/
def promote_toxin (c : Cell) : Cell :=
  if c.cellType = PA_TYPE_SILENT ∨ c.cellType = PA_TYPE_INHIB_ONLY then
    { c with cellType := PA_TYPE_ACTIVE }
  else c

/-- Per-agent effect of one tick with `DIFFUSIVE_KILLING` on (branch 2
of `update`): dead cells age; SA dies iff its extracellular toxin
reading is at least the kill threshold, otherwise grows slowed by the
inhibitor factor; PA sub-states grow with their metabolic cost. -/
def step_cell (qs : QS) (crowd : ℚ) (c : Cell) : Cell :=
  if c.cellType = DEAD_TYPE then
    { c with growthRate := 0, divideFlag := false, color := COL_DEAD,
             deadCounter := c.deadCounter + 1 }
  else if c.cellType = SA_TYPE then
    if TOXIN_KILL_THRESHOLD ≤ c.signals.1 then
      { c with cellType := DEAD_TYPE, growthRate := 0,
               divideFlag := false, color := COL_DEAD, deadCounter := 0 }
    else
      let inh_out := if INHIBITOR_ON then c.signals.2 else 0
      { c with growthRate :=
                 SA_MU * crowd * inhibitor_growth_factor qs.inhib inh_out,
               divideFlag := decide (c.targetVol < c.volume),
               color := cell_color qs c }
  else if c.cellType = PA_TYPE_ACTIVE ∨ c.cellType = PA_TYPE_SILENT ∨
      c.cellType = PA_TYPE_INHIB_ONLY then
    { c with growthRate := PA_MU * crowd * pa_growth_factor c.cellType,
             divideFlag := decide (c.targetVol < c.volume),
             deadCounter := 0, color := cell_color qs c }
  else c

/-- Per-agent effect of one tick with `DIFFUSIVE_KILLING` off (branch 1
of `update`): as branch 2 but with no toxin kill for SA (and SA resets
its `deadCounter`). -/
def step_cell_nokill (qs : QS) (crowd : ℚ) (c : Cell) : Cell :=
  if c.cellType = DEAD_TYPE then
    { c with growthRate := 0, divideFlag := false, color := COL_DEAD,
             deadCounter := c.deadCounter + 1 }
  else if c.cellType = SA_TYPE then
    let inh_out := if INHIBITOR_ON then c.signals.2 else 0
    { c with growthRate :=
               SA_MU * crowd * inhibitor_growth_factor qs.inhib inh_out,
             divideFlag := decide (c.targetVol < c.volume),
             deadCounter := 0, color := cell_color qs c }
  else if c.cellType = PA_TYPE_ACTIVE ∨ c.cellType = PA_TYPE_SILENT ∨
      c.cellType = PA_TYPE_INHIB_ONLY then
    { c with growthRate := PA_MU * crowd * pa_growth_factor c.cellType,
             divideFlag := decide (c.targetVol < c.volume),
             deadCounter := 0, color := cell_color qs c }
  else c

/-- `cells_to_remove` of one tick. -/
def remove_list (cells : Pop) : List Nat :=
  cells.filterMap fun kc =>
    if kc.2.cellType = DEAD_TYPE ∧ DEAD_LIFETIME ≤ kc.2.deadCounter + 1 then
      some kc.1
    else none

/-- The two `QS activation of PRODUCTION via PA state switches` blocks
at the top of `update`: `n_pa` is the pre-tick producer count. -/
def qs_promote (qs : QS) (n_pa : Nat) (cells : Pop) : QS × Pop :=
  let st1 : QS × Pop :=
    if QS_ON_INHIB && !qs.inhib && decide (QS_POP_THRESHOLD_INHIB ≤ n_pa)
    then ({ qs with inhib := true },
          cells.map fun kc => (kc.1, promote_inhib kc.2))
    else (qs, cells)
  if QS_ON_TOXIN && !st1.1.toxin &&
      decide (QS_POP_THRESHOLD_TOXIN ≤ n_pa)
  then ({ st1.1 with toxin := true },
        st1.2.map fun kc => (kc.1, promote_toxin kc.2))
  else st1

/-- One tick of `update(cells)`: pre-tick counts, quorum-sensing
promotion of flags and producer sub-states, per-agent scan, deferred
removals. -/
def update (qs : QS) (cells : Pop) : QS × Pop :=
  let n_cells := cells.length
  let n_pa := n_pa_count cells
  let crowd := crowd_factor n_cells
  let st2 := qs_promote qs n_pa cells
  if !DIFFUSIVE_KILLING then
    let stepped := st2.2.map fun kc => (kc.1, step_cell_nokill st2.1 crowd kc.2)
    (st2.1, stepped.filter fun kc => !((remove_list st2.2).contains kc.1))
  else
    let stepped := st2.2.map fun kc => (kc.1, step_cell st2.1 crowd kc.2)
    (st2.1, stepped.filter fun kc => !((remove_list st2.2).contains kc.1))

/-- `divide(parent, d1, d2)` of the QS variant: daughters inherit the
parent's type (including producer sub-state), get the species base rate
and fresh independently jittered target volumes, and reset flags. -/
def divide (qs : QS) (parent d1 d2 : Cell) (j1 j2 : ℚ) : Cell × Cell :=
  let ptype := parent.cellType
  let d1 := { d1 with cellType := ptype }
  let d2 := { d2 with cellType := ptype }
  let d1 :=
    if ptype = SA_TYPE then
      { d1 with color := cell_color qs d1, growthRate := SA_MU,
                targetVol := DIV_LENGTH_MEAN_SA + j1 }
    else if ptype = PA_TYPE_ACTIVE ∨ ptype = PA_TYPE_SILENT ∨
        ptype = PA_TYPE_INHIB_ONLY then
      { d1 with color := cell_color qs d1, growthRate := PA_MU,
                targetVol := DIV_LENGTH_MEAN_PA + j1 }
    else d1
  let d2 :=
    if ptype = SA_TYPE then
      { d2 with color := cell_color qs d2, growthRate := SA_MU,
                targetVol := DIV_LENGTH_MEAN_SA + j2 }
    else if ptype = PA_TYPE_ACTIVE ∨ ptype = PA_TYPE_SILENT ∨
        ptype = PA_TYPE_INHIB_ONLY then
      { d2 with color := cell_color qs d2, growthRate := PA_MU,
                targetVol := DIV_LENGTH_MEAN_PA + j2 }
    else d2
  ({ d1 with divideFlag := false, deadCounter := 0 },
   { d2 with divideFlag := false, deadCounter := 0 })

end DiffusionKillQS

namespace DiffusionKillQS

/-- With `DIFFUSIVE_KILLING = true` the tick runs branch 2. -/
theorem update_eq_kill (qs : QS) (cells : Pop) :
    update qs cells =
      (let crowd := crowd_factor cells.length
       let st2 := qs_promote qs (n_pa_count cells) cells
       (st2.1, (st2.2.map fun kc => (kc.1, step_cell st2.1 crowd kc.2)).filter
          fun kc => !((remove_list st2.2).contains kc.1))) := rfl

/-- The promotion stage's resulting flags: each flag latches `true`
exactly when it was `true` or its threshold is reached. -/
theorem qs_promote_fst (qs : QS) (n_pa : Nat) (cells : Pop) :
    (qs_promote qs n_pa cells).1 =
      ⟨qs.toxin || decide (QS_POP_THRESHOLD_TOXIN ≤ n_pa),
       qs.inhib || decide (QS_POP_THRESHOLD_INHIB ≤ n_pa)⟩ := by
  rcases qs with ⟨t, i⟩
  simp only [qs_promote, QS_ON_INHIB, QS_ON_TOXIN]
  cases t <;> cases i <;>
    by_cases h30 : QS_POP_THRESHOLD_INHIB ≤ n_pa <;>
    by_cases h150 : QS_POP_THRESHOLD_TOXIN ≤ n_pa <;>
    simp [h30, h150]

/-- The per-agent effect of the promotion stage. -/
def promo_fun (qs : QS) (n_pa : Nat) (c : Cell) : Cell :=
  (if QS_ON_TOXIN && !qs.toxin && decide (QS_POP_THRESHOLD_TOXIN ≤ n_pa)
   then promote_toxin else id)
  ((if QS_ON_INHIB && !qs.inhib && decide (QS_POP_THRESHOLD_INHIB ≤ n_pa)
    then promote_inhib else id) c)

theorem qs_promote_snd (qs : QS) (n_pa : Nat) (cells : Pop) :
    (qs_promote qs n_pa cells).2 =
      cells.map fun kc => (kc.1, promo_fun qs n_pa kc.2) := by
  rcases qs with ⟨t, i⟩
  simp only [qs_promote, promo_fun, QS_ON_INHIB, QS_ON_TOXIN]
  cases t <;> cases i <;>
    by_cases h30 : QS_POP_THRESHOLD_INHIB ≤ n_pa <;>
    by_cases h150 : QS_POP_THRESHOLD_TOXIN ≤ n_pa <;>
    simp [h30, h150, List.map_map, Function.comp]

/-- Promotion never touches an agent that is not in a promotable
producer sub-state. -/
theorem promo_fun_fix {qs : QS} {n_pa : Nat} {c : Cell}
    (h3 : c.cellType ≠ PA_TYPE_SILENT) (h4 : c.cellType ≠ PA_TYPE_INHIB_ONLY) :
    promo_fun qs n_pa c = c := by
  cases hqi : (QS_ON_INHIB && !qs.inhib &&
      decide (QS_POP_THRESHOLD_INHIB ≤ n_pa)) <;>
  cases hqt : (QS_ON_TOXIN && !qs.toxin &&
      decide (QS_POP_THRESHOLD_TOXIN ≤ n_pa)) <;>
    simp [promo_fun, promote_inhib, promote_toxin, hqi, hqt, h3, h4]

/-- Promotion changes at most the `cellType`: every other field is
preserved. -/
theorem promo_fun_fields (qs : QS) (n_pa : Nat) (c : Cell) :
    (promo_fun qs n_pa c).pos = c.pos ∧
    (promo_fun qs n_pa c).volume = c.volume ∧
    (promo_fun qs n_pa c).targetVol = c.targetVol ∧
    (promo_fun qs n_pa c).growthRate = c.growthRate ∧
    (promo_fun qs n_pa c).color = c.color ∧
    (promo_fun qs n_pa c).divideFlag = c.divideFlag ∧
    (promo_fun qs n_pa c).deadCounter = c.deadCounter ∧
    (promo_fun qs n_pa c).signals = c.signals ∧
    (promo_fun qs n_pa c).species = c.species := by
  by_cases h3 : c.cellType = PA_TYPE_SILENT <;>
  by_cases h4 : c.cellType = PA_TYPE_INHIB_ONLY <;>
  cases hqi : (QS_ON_INHIB && !qs.inhib &&
      decide (QS_POP_THRESHOLD_INHIB ≤ n_pa)) <;>
  cases hqt : (QS_ON_TOXIN && !qs.toxin &&
      decide (QS_POP_THRESHOLD_TOXIN ≤ n_pa)) <;>
    · simp only [PA_TYPE_SILENT, PA_TYPE_INHIB_ONLY] at h3 h4
      simp [promo_fun, promote_inhib, promote_toxin, hqi, hqt, h3, h4,
        PA_TYPE_SILENT, PA_TYPE_INHIB_ONLY]

/-- Activity order of producer sub-states: silent (3) < inhibitor-only
(4) < toxin-active (1). -/
def pa_rank (t : Nat) : Nat :=
  if t = PA_TYPE_SILENT then 0
  else if t = PA_TYPE_INHIB_ONLY then 1
  else 2

/-- Promotion maps producer sub-states to producer sub-states and never
decreases the activity order. -/
theorem promo_fun_rank {qs : QS} {n_pa : Nat} {c : Cell}
    (hpa : c.cellType = PA_TYPE_ACTIVE ∨ c.cellType = PA_TYPE_SILENT ∨
      c.cellType = PA_TYPE_INHIB_ONLY) :
    ((promo_fun qs n_pa c).cellType = PA_TYPE_ACTIVE ∨
      (promo_fun qs n_pa c).cellType = PA_TYPE_SILENT ∨
      (promo_fun qs n_pa c).cellType = PA_TYPE_INHIB_ONLY) ∧
    pa_rank c.cellType ≤ pa_rank (promo_fun qs n_pa c).cellType := by
  rcases hpa with h | h | h <;>
  cases hqi : (QS_ON_INHIB && !qs.inhib &&
      decide (QS_POP_THRESHOLD_INHIB ≤ n_pa)) <;>
  cases hqt : (QS_ON_TOXIN && !qs.toxin &&
      decide (QS_POP_THRESHOLD_TOXIN ≤ n_pa)) <;>
    simp [promo_fun, promote_inhib, promote_toxin, pa_rank, hqi, hqt, h,
      PA_TYPE_ACTIVE, PA_TYPE_SILENT, PA_TYPE_INHIB_ONLY]

end DiffusionKillQS

namespace DiffusionKillQS

theorem mem_remove_list_iff_QS {cells : Pop} {k : Nat} {c : Cell}
    (hnd : (cells.map Prod.fst).Nodup) (hmem : (k, c) ∈ cells) :
    (remove_list cells).contains k = true ↔
      c.cellType = DEAD_TYPE ∧ DEAD_LIFETIME ≤ c.deadCounter + 1 := by
  rw [List.contains, List.elem_iff]
  simp only [remove_list, List.mem_filterMap]
  constructor
  · rintro ⟨kc, hm, hif⟩
    by_cases hc : kc.2.cellType = DEAD_TYPE ∧
        DEAD_LIFETIME ≤ kc.2.deadCounter + 1
    · rw [if_pos hc] at hif
      obtain rfl : kc.1 = k := Option.some_inj.mp hif
      have h1 := AssocList.lookup_eq_some_of_mem hnd hmem
      have h2 := AssocList.lookup_eq_some_of_mem hnd
        (show (kc.1, kc.2) ∈ cells from hm)
      rw [h1] at h2
      obtain rfl : c = kc.2 := Option.some_inj.mp h2
      exact hc
    · rw [if_neg hc] at hif; exact absurd hif (by simp)
  · intro hc
    exact ⟨(k, c), hmem, by rw [if_pos hc]⟩

theorem keys_qs_promote (qs : QS) (n_pa : Nat) (cells : Pop) :
    (qs_promote qs n_pa cells).2.map Prod.fst = cells.map Prod.fst := by
  rw [qs_promote_snd, List.map_map]
  rfl

/-- What one QS tick does at a given key: the agent is first promoted,
then stepped, and removed iff it entered the tick dead with its
incremented counter at the lifetime. -/
theorem lookup_update_QS {qs : QS} {cells : Pop} {k : Nat} {c : Cell}
    (hnd : (cells.map Prod.fst).Nodup) (hmem : (k, c) ∈ cells) :
    (update qs cells).2.lookup k =
      (let c2 := promo_fun qs (n_pa_count cells) c
       if c2.cellType = DEAD_TYPE ∧ DEAD_LIFETIME ≤ c2.deadCounter + 1
       then none
       else some (step_cell (qs_promote qs (n_pa_count cells) cells).1
         (crowd_factor cells.length) c2)) := by
  rw [update_eq_kill]
  simp only
  rw [AssocList.lookup_filter_key
    (fun k => !((remove_list (qs_promote qs (n_pa_count cells) cells).2).contains k)),
    AssocList.lookup_map_snd]
  have hnd2 : ((qs_promote qs (n_pa_count cells) cells).2.map Prod.fst).Nodup := by
    rw [keys_qs_promote]; exact hnd
  have hmem2 : (k, promo_fun qs (n_pa_count cells) c) ∈
      (qs_promote qs (n_pa_count cells) cells).2 := by
    rw [qs_promote_snd]
    exact List.mem_map.mpr ⟨(k, c), hmem, rfl⟩
  rw [AssocList.find?_eq_some_of_mem hnd2 hmem2]
  by_cases hc : (promo_fun qs (n_pa_count cells) c).cellType = DEAD_TYPE ∧
      DEAD_LIFETIME ≤ (promo_fun qs (n_pa_count cells) c).deadCounter + 1
  · rw [(mem_remove_list_iff_QS hnd2 hmem2).mpr hc]
    simp [hc]
  · have : (remove_list (qs_promote qs (n_pa_count cells) cells).2).contains k
        = false := by
      rw [← Bool.not_eq_true]
      intro ht
      exact hc ((mem_remove_list_iff_QS hnd2 hmem2).mp ht)
    rw [this]
    simp [hc]

theorem lookup_update_QS_none {qs : QS} {cells : Pop} {k : Nat}
    (h : k ∉ cells.map Prod.fst) :
    (update qs cells).2.lookup k = none := by
  rw [update_eq_kill]
  simp only
  rw [AssocList.lookup_filter_key
    (fun k => !((remove_list (qs_promote qs (n_pa_count cells) cells).2).contains k)),
    AssocList.lookup_map_snd,
    AssocList.find?_eq_none_iff.mpr (by rw [keys_qs_promote]; exact h)]
  simp

theorem update_QS_keys_sublist (qs : QS) (cells : Pop) :
    ((update qs cells).2.map Prod.fst).Sublist (cells.map Prod.fst) := by
  rw [update_eq_kill]
  simp only
  refine List.Sublist.trans
    (List.Sublist.map Prod.fst (List.filter_sublist _)) ?_
  rw [List.map_map, show (Prod.fst ∘ fun kc : Nat × Cell =>
    (kc.1, step_cell (qs_promote qs (n_pa_count cells) cells).1
      (crowd_factor cells.length) kc.2)) = Prod.fst from rfl,
    keys_qs_promote]

theorem update_QS_keys_nodup {qs : QS} {cells : Pop}
    (hnd : (cells.map Prod.fst).Nodup) :
    ((update qs cells).2.map Prod.fst).Nodup :=
  List.Nodup.sublist (update_QS_keys_sublist qs cells) hnd

/-- The resulting flags of one QS tick. -/
theorem update_QS_fst (qs : QS) (cells : Pop) :
    (update qs cells).1 =
      ⟨qs.toxin || decide (QS_POP_THRESHOLD_TOXIN ≤ n_pa_count cells),
       qs.inhib || decide (QS_POP_THRESHOLD_INHIB ≤ n_pa_count cells)⟩ := by
  rw [update_eq_kill]
  simp only
  exact qs_promote_fst qs (n_pa_count cells) cells

end DiffusionKillQS

namespace ContactKill

theorem pa_grid_perm {s : ℚ} {cells₁ cells₂ : Pop} (h : cells₁.Perm cells₂)
    (g : Int × Int) : (pa_grid s cells₁ g).Perm (pa_grid s cells₂ g) :=
  h.filterMap _

theorem sa_killed_perm {s : ℚ} {cells₁ cells₂ : Pop}
    (h : cells₁.Perm cells₂) (x0 y0 : ℚ) :
    sa_killed s cells₁ x0 y0 = sa_killed s cells₂ x0 y0 := by
  have hg : ∀ g, (pa_grid s cells₁ g).any
      (fun p => decide ((x0 - p.1) * (x0 - p.1) +
        (y0 - p.2.1) * (y0 - p.2.1) ≤ KILL_RADIUS_SQ)) =
      (pa_grid s cells₂ g).any
      (fun p => decide ((x0 - p.1) * (x0 - p.1) +
        (y0 - p.2.1) * (y0 - p.2.1) ≤ KILL_RADIUS_SQ)) :=
    fun g => AssocList.any_perm (pa_grid_perm h g) _
  unfold sa_killed
  simp only [hg]

theorem step_cell_perm {s : ℚ} {cells₁ cells₂ : Pop}
    (h : cells₁.Perm cells₂) (crowd : ℚ) (c : Cell) :
    step_cell s cells₁ crowd c = step_cell s cells₂ crowd c := by
  unfold step_cell
  rw [sa_killed_perm h]

theorem remove_list_perm {cells₁ cells₂ : Pop} (h : cells₁.Perm cells₂) :
    (remove_list cells₁).Perm (remove_list cells₂) :=
  h.filterMap _

theorem update_kill_perm {s : ℚ} {cells₁ cells₂ : Pop}
    (h : cells₁.Perm cells₂) :
    (update_kill s cells₁).Perm (update_kill s cells₂) := by
  simp only [update_kill]
  have hstep : (fun kc : Nat × Cell =>
        (kc.1, step_cell s cells₁ (crowd_factor cells₁.length) kc.2)) =
      fun kc => (kc.1, step_cell s cells₂ (crowd_factor cells₂.length) kc.2) := by
    funext kc
    rw [h.length_eq, step_cell_perm h]
  have hpm : (cells₁.map fun kc =>
        (kc.1, step_cell s cells₁ (crowd_factor cells₁.length) kc.2)).Perm
      (cells₂.map fun kc =>
        (kc.1, step_cell s cells₂ (crowd_factor cells₂.length) kc.2)) := by
    rw [hstep]
    exact h.map _
  have hpred : ∀ kc : Nat × Cell,
      (!((remove_list cells₁).contains kc.1)) =
        (!((remove_list cells₂).contains kc.1)) := fun kc => by
    rw [AssocList.contains_perm (remove_list_perm h)]
  refine List.Perm.trans ?_ (hpm.filter _)
  rw [List.filter_congr fun x _ => hpred x]

end ContactKill

namespace DiffusionKillQS

theorem update_perm {qs : QS} {cells₁ cells₂ : Pop}
    (h : cells₁.Perm cells₂) :
    (update qs cells₁).1 = (update qs cells₂).1 ∧
      (update qs cells₁).2.Perm (update qs cells₂).2 := by
  have hnpa : n_pa_count cells₁ = n_pa_count cells₂ := h.countP_eq _
  have hlen := h.length_eq
  constructor
  · rw [update_QS_fst, update_QS_fst, hnpa]
  · rw [update_eq_kill, update_eq_kill]
    simp only
    have hst2 : (qs_promote qs (n_pa_count cells₁) cells₁).2.Perm
        (qs_promote qs (n_pa_count cells₂) cells₂).2 := by
      rw [qs_promote_snd, qs_promote_snd, hnpa]
      exact h.map _
    have hfl : (qs_promote qs (n_pa_count cells₁) cells₁).1 =
        (qs_promote qs (n_pa_count cells₂) cells₂).1 := by
      rw [qs_promote_fst, qs_promote_fst, hnpa]
    have hpm : ((qs_promote qs (n_pa_count cells₁) cells₁).2.map fun kc =>
          (kc.1, step_cell (qs_promote qs (n_pa_count cells₁) cells₁).1
            (crowd_factor cells₁.length) kc.2)).Perm
        ((qs_promote qs (n_pa_count cells₂) cells₂).2.map fun kc =>
          (kc.1, step_cell (qs_promote qs (n_pa_count cells₂) cells₂).1
            (crowd_factor cells₂.length) kc.2)) := by
      rw [hfl, hlen]
      exact hst2.map _
    have hrm : (remove_list (qs_promote qs (n_pa_count cells₁) cells₁).2).Perm
        (remove_list (qs_promote qs (n_pa_count cells₂) cells₂).2) :=
      hst2.filterMap _
    have hpred : ∀ kc : Nat × Cell,
        (!((remove_list (qs_promote qs (n_pa_count cells₁) cells₁).2).contains kc.1)) =
          (!((remove_list (qs_promote qs (n_pa_count cells₂) cells₂).2).contains kc.1)) :=
      fun kc => by
        rw [AssocList.contains_perm hrm]
    refine List.Perm.trans ?_ (hpm.filter _)
    rw [List.filter_congr fun x _ => hpred x]

end DiffusionKillQS

/-- **C3**: One update tick is a pure function of the pre-tick state
(both `update`s are Lean functions of the population and, for the QS
variant, the flag record), and it is independent of the iteration order
over agents: permuting the scan order yields a permutation of the same
resulting population, with an identical resulting agent (or identical
removal) at every key, and identical resulting quorum-sensing flags. -/
theorem C3_order_independent :
    (∀ (s : ℚ) (cells₁ cells₂ : Pop), cells₁.Perm cells₂ →
      (cells₁.map Prod.fst).Nodup →
      (ContactKill.update s cells₁).Perm (ContactKill.update s cells₂) ∧
      (∀ k, (ContactKill.update s cells₁).lookup k =
            (ContactKill.update s cells₂).lookup k)) ∧
    (∀ (qs : DiffusionKillQS.QS) (cells₁ cells₂ : Pop), cells₁.Perm cells₂ →
      (cells₁.map Prod.fst).Nodup →
      (DiffusionKillQS.update qs cells₁).1 =
        (DiffusionKillQS.update qs cells₂).1 ∧
      (DiffusionKillQS.update qs cells₁).2.Perm
        (DiffusionKillQS.update qs cells₂).2 ∧
      (∀ k, (DiffusionKillQS.update qs cells₁).2.lookup k =
            (DiffusionKillQS.update qs cells₂).2.lookup k)) := by
  constructor
  · intro s cells₁ cells₂ h hnd
    have hp : (ContactKill.update s cells₁).Perm (ContactKill.update s cells₂) := by
      rw [ContactKill.update_eq_update_kill, ContactKill.update_eq_update_kill]
      exact ContactKill.update_kill_perm h
    refine ⟨hp, fun k => ?_⟩
    refine AssocList.lookup_perm hp ?_ k
    rw [ContactKill.update_eq_update_kill]
    exact ContactKill.update_kill_keys_nodup hnd
  · intro qs cells₁ cells₂ h hnd
    obtain ⟨h1, h2⟩ := @DiffusionKillQS.update_perm qs cells₁ cells₂ h
    exact ⟨h1, h2, fun k =>
      AssocList.lookup_perm h2 (DiffusionKillQS.update_QS_keys_nodup hnd) k⟩

theorem C3_order_independent_witness :
    ((ContactKill.update 2 [(0, ContactKill.wSA), (1, ContactKill.wPA)]).Perm
      (ContactKill.update 2 [(1, ContactKill.wPA), (0, ContactKill.wSA)]) ∧
     (∀ k, (ContactKill.update 2
        [(0, ContactKill.wSA), (1, ContactKill.wPA)]).lookup k =
          (ContactKill.update 2
            [(1, ContactKill.wPA), (0, ContactKill.wSA)]).lookup k)) ∧
    ((DiffusionKillQS.update ⟨false, false⟩
        [(0, ContactKill.wSA), (1, ContactKill.wPA)]).1 =
      (DiffusionKillQS.update ⟨false, false⟩
        [(1, ContactKill.wPA), (0, ContactKill.wSA)]).1 ∧
     (DiffusionKillQS.update ⟨false, false⟩
        [(0, ContactKill.wSA), (1, ContactKill.wPA)]).2.Perm
      (DiffusionKillQS.update ⟨false, false⟩
        [(1, ContactKill.wPA), (0, ContactKill.wSA)]).2 ∧
     (∀ k, (DiffusionKillQS.update ⟨false, false⟩
        [(0, ContactKill.wSA), (1, ContactKill.wPA)]).2.lookup k =
          (DiffusionKillQS.update ⟨false, false⟩
            [(1, ContactKill.wPA), (0, ContactKill.wSA)]).2.lookup k)) :=
  ⟨C3_order_independent.1 2 _ _ (List.Perm.swap _ _ _) (by simp),
   C3_order_independent.2 ⟨false, false⟩ _ _ (List.Perm.swap _ _ _) (by simp)⟩


namespace DiffusionKillQS

/-- A surviving SA agent's assigned growth rate: base rate × crowding ×
the (QS-gated) inhibitor factor evaluated at its inhibitor reading. -/
theorem sa_surviving (qs : QS) (cells : Pop) (k : Nat) (c : Cell)
    (hnd : (cells.map Prod.fst).Nodup) (hmem : (k, c) ∈ cells)
    (hsa : c.cellType = SA_TYPE) (htox : c.signals.1 < TOXIN_KILL_THRESHOLD) :
    ∃ c', (update qs cells).2.lookup k = some c' ∧
      c'.cellType = SA_TYPE ∧
      c'.growthRate = SA_MU * crowd_factor cells.length *
        inhibitor_growth_factor (update qs cells).1.inhib c.signals.2 := by
  rw [lookup_update_QS hnd hmem]
  have hpromo : promo_fun qs (n_pa_count cells) c = c :=
    promo_fun_fix (by rw [hsa]; simp [SA_TYPE, PA_TYPE_SILENT])
      (by rw [hsa]; simp [SA_TYPE, PA_TYPE_INHIB_ONLY])
  simp only [hpromo]
  rw [if_neg (by rw [hsa]; simp [SA_TYPE, DEAD_TYPE])]
  refine ⟨_, rfl, ?_, ?_⟩
  · simp only [step_cell]
    rw [if_neg (by rw [hsa]; simp [SA_TYPE, DEAD_TYPE]), if_pos hsa,
      if_neg (not_le.mpr htox)]
    exact hsa
  · simp only [step_cell]
    rw [if_neg (by rw [hsa]; simp [SA_TYPE, DEAD_TYPE]), if_pos hsa,
      if_neg (not_le.mpr htox)]
    have hfl : (update qs cells).1 =
        (qs_promote qs (n_pa_count cells) cells).1 := by
      rw [update_eq_kill]
    rw [hfl]
    simp [INHIBITOR_ON]

/-- An SA agent exposed to inhibitor concentration 2 with no toxin,
alone in the population (so no quorum threshold is reached). -/
def wSAI : Cell :=
  { cellType := 0, pos := (0, 0, 0), volume := 1, targetVol := 1,
    growthRate := 1.8, color := (0, 1, 0), divideFlag := false,
    deadCounter := 0, signals := (0, 2), species := (0, 0) }

/-- **C4 is false on the QS variant**: with the inhibitor QS flag not
yet active, an SA agent exposed to inhibitor concentration 2 keeps its
full crowding-scaled growth rate, whereas the claim's formula
`SA_MU · crowd · max(0, 1 − strength·conc)` predicts 0 — the inhibition
factor in `diffusion_kill_QS.py` is gated by `QS_ACTIVE_INHIB`. -/
theorem C4_inhibition_counterexample :
    ∃ c', (update ⟨false, false⟩ [(0, wSAI)]).2.lookup 0 = some c' ∧
      c'.growthRate = SA_MU * crowd_factor 1 ∧
      c'.growthRate ≠ SA_MU * crowd_factor 1 *
        max 0 (1 - INHIB_EFFECT_STRENGTH * wSAI.signals.2) := by
  obtain ⟨c', hl, hT, hG⟩ := sa_surviving ⟨false, false⟩ [(0, wSAI)] 0 wSAI
    (by simp) (by simp) rfl (by norm_num [wSAI, TOXIN_KILL_THRESHOLD])
  have hflag : (update ⟨false, false⟩ [(0, wSAI)]).1.inhib = false := by
    rw [update_QS_fst]
    simp [n_pa_count, wSAI, PA_TYPE_ACTIVE, PA_TYPE_SILENT,
      PA_TYPE_INHIB_ONLY, QS_POP_THRESHOLD_INHIB]
  rw [hflag] at hG
  have hfac : inhibitor_growth_factor false wSAI.signals.2 = 1 := by
    simp [inhibitor_growth_factor]
  rw [hfac, mul_one] at hG
  refine ⟨c', hl, ?_, ?_⟩
  · rw [hG]
    norm_num
  · rw [hG]
    norm_num [SA_MU, crowd_factor, CARRYING_CAPACITY, MAX_CELLS,
      INHIB_EFFECT_STRENGTH, wSAI]

/-- **C4 (amended)**: the growth rate assigned to a surviving SA agent
is `SA_MU × crowd × inhibitor_growth_factor`, where in the QS variant
the factor is *gated* by the (post-promotion) inhibitor QS flag —
`max(0, 1 − strength·conc)` once the flag is set and `1` before — while
in the non-QS variant (`diffusion_kill.py`) the factor is un-gated and
equals `max(0, 1 − strength·conc)` whenever `INHIBITOR_ON`; inhibition
is independent of the kill check (the slowed agent stays SA, alive). -/
theorem C4_inhibition_amended :
    (∀ (qs : QS) (cells : Pop) (k : Nat) (c : Cell),
      (cells.map Prod.fst).Nodup → (k, c) ∈ cells →
      c.cellType = SA_TYPE → c.signals.1 < TOXIN_KILL_THRESHOLD →
      ∃ c', (update qs cells).2.lookup k = some c' ∧
        c'.cellType = SA_TYPE ∧
        c'.growthRate = SA_MU * crowd_factor cells.length *
          inhibitor_growth_factor (update qs cells).1.inhib c.signals.2) ∧
    (∀ (b : Bool) (conc : ℚ), inhibitor_growth_factor b conc =
        if b then max 0 (1 - INHIB_EFFECT_STRENGTH * conc) else 1) ∧
    (∀ conc : ℚ, DiffusionKill.inhibitor_growth_factor conc =
        max 0 (1 - DiffusionKill.INHIB_EFFECT_STRENGTH * conc)) := by
  refine ⟨fun qs cells k c hnd hmem hsa htox =>
    sa_surviving qs cells k c hnd hmem hsa htox, ?_, ?_⟩
  · intro b conc
    cases b <;> simp [inhibitor_growth_factor, INHIBITOR_ON]
  · intro conc
    simp [DiffusionKill.inhibitor_growth_factor, DiffusionKill.INHIBITOR_ON]

theorem C4_inhibition_amended_witness :
    ∃ c', (update ⟨false, false⟩ [(0, wSAI)]).2.lookup 0 = some c' ∧
      c'.cellType = SA_TYPE ∧
      c'.growthRate = SA_MU * crowd_factor 1 *
        inhibitor_growth_factor
          (update ⟨false, false⟩ [(0, wSAI)]).1.inhib wSAI.signals.2 :=
  C4_inhibition_amended.1 ⟨false, false⟩ [(0, wSAI)] 0 wSAI (by simp)
    (by simp) rfl (by norm_num [wSAI, TOXIN_KILL_THRESHOLD])

end DiffusionKillQS

namespace DiffusionKillQS

/-- The producer (PA) sub-states. -/
def producer_type (t : Nat) : Prop :=
  t = PA_TYPE_ACTIVE ∨ t = PA_TYPE_SILENT ∨ t = PA_TYPE_INHIB_ONLY

/-- One tick as a function on the full simulation state (flags and
population). -/
def update_pair (p : QS × Pop) : QS × Pop := update p.1 p.2

theorem producer_one_tick (qs : QS) (cells : Pop) (k : Nat) (c : Cell)
    (hnd : (cells.map Prod.fst).Nodup) (hmem : (k, c) ∈ cells)
    (hpa : producer_type c.cellType) :
    ∃ c', (update qs cells).2.lookup k = some c' ∧
      producer_type c'.cellType ∧
      pa_rank c.cellType ≤ pa_rank c'.cellType := by
  rw [lookup_update_QS hnd hmem]
  obtain ⟨hptypes, hrank⟩ := @promo_fun_rank qs (n_pa_count cells) c hpa
  have hne2 : (promo_fun qs (n_pa_count cells) c).cellType ≠ DEAD_TYPE := by
    rcases hptypes with h | h | h <;> rw [h] <;>
      simp [PA_TYPE_ACTIVE, PA_TYPE_SILENT, PA_TYPE_INHIB_ONLY, DEAD_TYPE]
  have hne0 : (promo_fun qs (n_pa_count cells) c).cellType ≠ SA_TYPE := by
    rcases hptypes with h | h | h <;> rw [h] <;>
      simp [PA_TYPE_ACTIVE, PA_TYPE_SILENT, PA_TYPE_INHIB_ONLY, SA_TYPE]
  simp only
  rw [if_neg (fun hc => hne2 hc.1)]
  refine ⟨_, rfl, ?_, ?_⟩
  · simp only [step_cell]
    rw [if_neg hne2, if_neg hne0, if_pos hptypes]
    exact hptypes
  · simp only [step_cell]
    rw [if_neg hne2, if_neg hne0, if_pos hptypes]
    exact hrank

theorem producer_trajectory :
    ∀ (n : Nat) (p : QS × Pop) (k : Nat) (c : Cell),
      (p.2.map Prod.fst).Nodup → (k, c) ∈ p.2 →
      producer_type c.cellType →
      ∃ c', (update_pair^[n] p).2.lookup k = some c' ∧
        producer_type c'.cellType ∧
        pa_rank c.cellType ≤ pa_rank c'.cellType := by
  intro n
  induction n with
  | zero =>
    intro p k c hnd hmem hpa
    exact ⟨c, AssocList.lookup_eq_some_of_mem hnd hmem, hpa, le_refl _⟩
  | succ m ih =>
    intro p k c hnd hmem hpa
    obtain ⟨c1, hl1, hpa1, hr1⟩ := producer_one_tick p.1 p.2 k c hnd hmem hpa
    obtain ⟨c', hl', hpa', hr'⟩ := ih (update_pair p) k c1
      (update_QS_keys_nodup hnd) (AssocList.mem_of_lookup_eq_some hl1) hpa1
    rw [Function.iterate_succ_apply]
    exact ⟨c', hl', hpa', le_trans hr1 hr'⟩

/-- **C5**: Each quorum-sensing flag after a tick equals its old value
OR-ed with "this channel's threshold is reached by the pre-tick producer
count" — so it flips exactly on the first tick the count meets the
threshold and is never reset (monotone over any number of ticks) — and
producer agents are never demoted: over any number of ticks a producer
agent stays a producer with non-decreasing activity rank
(silent < inhibitor-only < toxin-active). -/
theorem C5_qs_monotone :
    (∀ (qs : QS) (cells : Pop),
      (update qs cells).1.inhib =
        (qs.inhib || decide (QS_POP_THRESHOLD_INHIB ≤ n_pa_count cells)) ∧
      (update qs cells).1.toxin =
        (qs.toxin || decide (QS_POP_THRESHOLD_TOXIN ≤ n_pa_count cells))) ∧
    (∀ (p : QS × Pop) (n : Nat),
      (p.1.inhib = true → (update_pair^[n] p).1.inhib = true) ∧
      (p.1.toxin = true → (update_pair^[n] p).1.toxin = true)) ∧
    (∀ (n : Nat) (p : QS × Pop) (k : Nat) (c : Cell),
      (p.2.map Prod.fst).Nodup → (k, c) ∈ p.2 →
      producer_type c.cellType →
      ∃ c', (update_pair^[n] p).2.lookup k = some c' ∧
        producer_type c'.cellType ∧
        pa_rank c.cellType ≤ pa_rank c'.cellType) := by
  refine ⟨?_, ?_, producer_trajectory⟩
  · intro qs cells
    rw [update_QS_fst]
    exact ⟨rfl, rfl⟩
  · intro p n
    induction n generalizing p with
    | zero => exact ⟨fun h => h, fun h => h⟩
    | succ m ih =>
      rw [Function.iterate_succ_apply]
      constructor
      · intro h
        refine (ih (update_pair p)).1 ?_
        show (update p.1 p.2).1.inhib = true
        rw [update_QS_fst]
        simp [h]
      · intro h
        refine (ih (update_pair p)).2 ?_
        show (update p.1 p.2).1.toxin = true
        rw [update_QS_fst]
        simp [h]

/-- Witness silent producer agent. -/
def wPAS : Cell :=
  { cellType := 3, pos := (0, 0, 0), volume := 1, targetVol := 1,
    growthRate := 0.6, color := (0, 0, 1), divideFlag := false,
    deadCounter := 0, signals := (0, 0), species := (0, 0) }

theorem C5_qs_monotone_witness :
    ((update_pair^[2] (⟨true, false⟩, [(0, wPAS)])).1.toxin = true) ∧
    (∃ c', (update_pair^[2] (⟨false, false⟩, [(0, wPAS)])).2.lookup 0 =
        some c' ∧ producer_type c'.cellType ∧
        pa_rank wPAS.cellType ≤ pa_rank c'.cellType) :=
  ⟨(C5_qs_monotone.2.1 (⟨true, false⟩, [(0, wPAS)]) 2).2 rfl,
   C5_qs_monotone.2.2 2 (⟨false, false⟩, [(0, wPAS)]) 0 wPAS (by simp)
     (by simp) (Or.inr (Or.inl rfl))⟩

end DiffusionKillQS

namespace DiffusionKillQS

theorem step_cell_dead_QS {qs : QS} {crowd : ℚ} {c : Cell}
    (hdead : c.cellType = DEAD_TYPE) :
    step_cell qs crowd c =
      { c with growthRate := 0, divideFlag := false, color := COL_DEAD,
               deadCounter := c.deadCounter + 1 } := by
  simp only [step_cell]
  rw [if_pos hdead]

theorem dead_one_tick_QS (qs : QS) (cells : Pop) (k : Nat) (c : Cell)
    (hnd : (cells.map Prod.fst).Nodup) (hmem : (k, c) ∈ cells)
    (hdead : c.cellType = DEAD_TYPE) :
    (update qs cells).2.lookup k = none ∨
      ∃ c', (update qs cells).2.lookup k = some c' ∧
        c'.cellType = DEAD_TYPE := by
  rw [lookup_update_QS hnd hmem]
  have hpromo : promo_fun qs (n_pa_count cells) c = c :=
    promo_fun_fix (by rw [hdead]; simp [DEAD_TYPE, PA_TYPE_SILENT])
      (by rw [hdead]; simp [DEAD_TYPE, PA_TYPE_INHIB_ONLY])
  simp only [hpromo]
  by_cases hrm : c.cellType = DEAD_TYPE ∧ DEAD_LIFETIME ≤ c.deadCounter + 1
  · rw [if_pos hrm]
    exact Or.inl rfl
  · rw [if_neg hrm]
    refine Or.inr ⟨_, rfl, ?_⟩
    rw [step_cell_dead_QS hdead]
    exact hdead

theorem lookup_update_pair_iterate_none {p : QS × Pop} {k : Nat}
    (h : p.2.lookup k = none) (n : Nat) :
    (update_pair^[n] p).2.lookup k = none := by
  induction n generalizing p with
  | zero => exact h
  | succ m ih =>
    rw [Function.iterate_succ_apply]
    exact ih (lookup_update_QS_none (AssocList.lookup_eq_none_iff.mp h))

theorem dead_forever_QS :
    ∀ (n : Nat) (p : QS × Pop) (k : Nat) (c : Cell),
      (p.2.map Prod.fst).Nodup → (k, c) ∈ p.2 → c.cellType = DEAD_TYPE →
      (update_pair^[n] p).2.lookup k = none ∨
        ∃ c', (update_pair^[n] p).2.lookup k = some c' ∧
          c'.cellType = DEAD_TYPE := by
  intro n
  induction n with
  | zero =>
    intro p k c hnd hmem hdead
    exact Or.inr ⟨c, AssocList.lookup_eq_some_of_mem hnd hmem, hdead⟩
  | succ m ih =>
    intro p k c hnd hmem hdead
    rw [Function.iterate_succ_apply]
    rcases dead_one_tick_QS p.1 p.2 k c hnd hmem hdead with h1 | ⟨c1, hl1, hd1⟩
    · exact Or.inl (lookup_update_pair_iterate_none h1 m)
    · exact ih (update_pair p) k c1 (update_QS_keys_nodup hnd)
        (AssocList.mem_of_lookup_eq_some hl1) hd1

end DiffusionKillQS

namespace ContactKill

theorem dead_one_tick (s : ℚ) (cells : Pop) (k : Nat) (c : Cell)
    (hnd : (cells.map Prod.fst).Nodup) (hmem : (k, c) ∈ cells)
    (hdead : c.cellType = 2) :
    (update s cells).lookup k = none ∨
      ∃ c', (update s cells).lookup k = some c' ∧ c'.cellType = 2 := by
  rw [update_eq_update_kill, lookup_update_kill hnd hmem]
  by_cases hrm : c.cellType = 2 ∧ DEAD_LIFETIME ≤ c.deadCounter + 1
  · rw [if_pos hrm]
    exact Or.inl rfl
  · rw [if_neg hrm]
    refine Or.inr ⟨_, rfl, ?_⟩
    rw [step_cell_dead hdead]
    exact hdead

theorem dead_forever_contact (s : ℚ) :
    ∀ (n : Nat) (cells : Pop) (k : Nat) (c : Cell),
      (cells.map Prod.fst).Nodup → (k, c) ∈ cells → c.cellType = 2 →
      ((update s)^[n] cells).lookup k = none ∨
        ∃ c', ((update s)^[n] cells).lookup k = some c' ∧
          c'.cellType = 2 := by
  intro n
  induction n with
  | zero =>
    intro cells k c hnd hmem hdead
    exact Or.inr ⟨c, AssocList.lookup_eq_some_of_mem hnd hmem, hdead⟩
  | succ m ih =>
    intro cells k c hnd hmem hdead
    rw [Function.iterate_succ_apply]
    rcases dead_one_tick s cells k c hnd hmem hdead with h1 | ⟨c1, hl1, hd1⟩
    · exact Or.inl (lookup_update_iterate_none h1 m)
    · refine ih (update s cells) k c1 ?_
        (AssocList.mem_of_lookup_eq_some hl1) hd1
      rw [update_eq_update_kill]
      exact update_kill_keys_nodup hnd

end ContactKill

/-- **C6**: Once an agent's `cellType` is the dead tag, no later tick
— including quorum-sensing promotions in the QS variant — ever changes
it to any other value: after any number of ticks the agent is either
removed or still dead. -/
theorem C6_no_resurrection :
    (∀ (s : ℚ) (n : Nat) (cells : Pop) (k : Nat) (c : Cell),
      (cells.map Prod.fst).Nodup → (k, c) ∈ cells → c.cellType = 2 →
      ((ContactKill.update s)^[n] cells).lookup k = none ∨
        ∃ c', ((ContactKill.update s)^[n] cells).lookup k = some c' ∧
          c'.cellType = 2) ∧
    (∀ (n : Nat) (p : DiffusionKillQS.QS × Pop) (k : Nat) (c : Cell),
      (p.2.map Prod.fst).Nodup → (k, c) ∈ p.2 →
      c.cellType = DiffusionKillQS.DEAD_TYPE →
      (DiffusionKillQS.update_pair^[n] p).2.lookup k = none ∨
        ∃ c', (DiffusionKillQS.update_pair^[n] p).2.lookup k = some c' ∧
          c'.cellType = DiffusionKillQS.DEAD_TYPE) :=
  ⟨fun s => ContactKill.dead_forever_contact s,
   DiffusionKillQS.dead_forever_QS⟩

theorem C6_no_resurrection_witness :
    (((ContactKill.update 2)^[3] [(0, ContactKill.wDead)]).lookup 0 = none ∨
      ∃ c', ((ContactKill.update 2)^[3] [(0, ContactKill.wDead)]).lookup 0 =
        some c' ∧ c'.cellType = 2) ∧
    ((DiffusionKillQS.update_pair^[3]
        (⟨false, false⟩, [(0, ContactKill.wDead)])).2.lookup 0 = none ∨
      ∃ c', (DiffusionKillQS.update_pair^[3]
        (⟨false, false⟩, [(0, ContactKill.wDead)])).2.lookup 0 = some c' ∧
          c'.cellType = DiffusionKillQS.DEAD_TYPE) :=
  ⟨C6_no_resurrection.1 2 3 [(0, ContactKill.wDead)] 0 ContactKill.wDead
     (by simp) (by simp) rfl,
   C6_no_resurrection.2 3 (⟨false, false⟩, [(0, ContactKill.wDead)]) 0
     ContactKill.wDead (by simp) (by simp) rfl⟩

namespace ContactKill

theorem step_cell_unrecognized {s : ℚ} {cells : Pop} {crowd : ℚ} {c : Cell}
    (h0 : c.cellType ≠ 0) (h1 : c.cellType ≠ 1) (h2 : c.cellType ≠ 2) :
    step_cell s cells crowd c = c := by
  simp only [step_cell]
  rw [if_neg h1, if_neg h0, if_neg h2]

/-- An agent of unrecognized type is never touched and never removed:
after any number of ticks it is still present, bit-for-bit unchanged. -/
theorem unrecognized_forever (s : ℚ) :
    ∀ (n : Nat) (cells : Pop) (k : Nat) (c : Cell),
      (cells.map Prod.fst).Nodup → (k, c) ∈ cells →
      c.cellType ≠ 0 → c.cellType ≠ 1 → c.cellType ≠ 2 →
      ((update s)^[n] cells).lookup k = some c := by
  intro n
  induction n with
  | zero =>
    intro cells k c hnd hmem _ _ _
    exact AssocList.lookup_eq_some_of_mem hnd hmem
  | succ m ih =>
    intro cells k c hnd hmem h0 h1 h2
    have hone : (update s cells).lookup k = some c := by
      rw [update_eq_update_kill, lookup_update_kill hnd hmem,
        if_neg (fun hc => h2 hc.1), step_cell_unrecognized h0 h1 h2]
    rw [Function.iterate_succ_apply]
    refine ih (update s cells) k c ?_
      (AssocList.mem_of_lookup_eq_some hone) h0 h1 h2
    rw [update_eq_update_kill]
    exact update_kill_keys_nodup hnd

/-- Witness agent with an unrecognized `cellType` and nonzero
pre-tick growth rate. -/
def wWeird : Cell :=
  { cellType := 5, pos := (0, 0, 0), volume := 1, targetVol := 1,
    growthRate := 7, color := (0, 0, 0), divideFlag := true,
    deadCounter := 0, signals := (0, 0), species := (0, 0) }

/-- **C7 is false as stated**: an agent with unrecognized `cellType` 5
and pre-tick `growthRate` 7 still has `growthRate` 7 (and `divideFlag`
true) after the tick — the update loop matches no branch for it and so
does not write zero growth; the zero default comes from `init`, not
from `update`. -/
theorem C7_failsafe_counterexample :
    ∃ c', (update 2 [(0, wWeird)]).lookup 0 = some c' ∧
      c'.growthRate = 7 ∧ c'.divideFlag = true ∧ ¬c'.growthRate = 0 := by
  have hone : (update 2 [(0, wWeird)]).lookup 0 = some wWeird :=
    unrecognized_forever 2 1 [(0, wWeird)] 0 wWeird (by simp) (by simp)
      (by decide) (by decide) (by decide)
  exact ⟨wWeird, hone, rfl, rfl, by norm_num [wWeird]⟩

end ContactKill

namespace DiffusionKillQS

theorem step_cell_unrecognized_QS {qs : QS} {crowd : ℚ} {c : Cell}
    (h2 : c.cellType ≠ DEAD_TYPE) (h0 : c.cellType ≠ SA_TYPE)
    (hpa : ¬(c.cellType = PA_TYPE_ACTIVE ∨ c.cellType = PA_TYPE_SILENT ∨
      c.cellType = PA_TYPE_INHIB_ONLY)) :
    step_cell qs crowd c = c := by
  simp only [step_cell]
  rw [if_neg h2, if_neg h0, if_neg hpa]

/-- In the QS engine too, an agent of unrecognized type is never
promoted, never stepped, never removed: after any number of ticks it is
still present, bit-for-bit unchanged. -/
theorem unrecognized_forever_QS :
    ∀ (n : Nat) (p : QS × Pop) (k : Nat) (c : Cell),
      (p.2.map Prod.fst).Nodup → (k, c) ∈ p.2 →
      c.cellType ≠ DEAD_TYPE → c.cellType ≠ SA_TYPE →
      ¬producer_type c.cellType →
      (update_pair^[n] p).2.lookup k = some c := by
  intro n
  induction n with
  | zero =>
    intro p k c hnd hmem _ _ _
    exact AssocList.lookup_eq_some_of_mem hnd hmem
  | succ m ih =>
    intro p k c hnd hmem h2 h0 hpa
    have h3 : c.cellType ≠ PA_TYPE_SILENT := fun h =>
      hpa (Or.inr (Or.inl h))
    have h4 : c.cellType ≠ PA_TYPE_INHIB_ONLY := fun h =>
      hpa (Or.inr (Or.inr h))
    have hone : (update p.1 p.2).2.lookup k = some c := by
      rw [lookup_update_QS hnd hmem]
      have hpromo : promo_fun p.1 (n_pa_count p.2) c = c :=
        promo_fun_fix h3 h4
      simp only [hpromo]
      rw [if_neg (fun hc => h2 hc.1),
        step_cell_unrecognized_QS h2 h0 (fun h => hpa h)]
    rw [Function.iterate_succ_apply]
    exact ih (update_pair p) k c (update_QS_keys_nodup hnd)
      (AssocList.mem_of_lookup_eq_some hone) h2 h0 hpa

end DiffusionKillQS

/-- **C7 (amended)**: an agent whose `cellType` matches no recognized
tag is left entirely unchanged by the tick in both engines — no error is
raised, the agent is never removed, and its fields (in particular
`growthRate` and `divideFlag`) are preserved for any number of ticks.
The fail-safe zero-growth default is established by `init`, which gives
every unrecognized type `growthRate = 0` and `divideFlag = false`; the
tick then preserves those values. -/
theorem C7_failsafe_amended :
    (∀ (s : ℚ) (cells : Pop) (crowd : ℚ) (c : Cell),
      c.cellType ≠ 0 → c.cellType ≠ 1 → c.cellType ≠ 2 →
      ContactKill.step_cell s cells crowd c = c) ∧
    (∀ (qs : DiffusionKillQS.QS) (crowd : ℚ) (c : Cell),
      c.cellType ≠ DiffusionKillQS.DEAD_TYPE →
      c.cellType ≠ DiffusionKillQS.SA_TYPE →
      ¬(c.cellType = DiffusionKillQS.PA_TYPE_ACTIVE ∨
        c.cellType = DiffusionKillQS.PA_TYPE_SILENT ∨
        c.cellType = DiffusionKillQS.PA_TYPE_INHIB_ONLY) →
      DiffusionKillQS.step_cell qs crowd c = c) ∧
    (∀ (j : ℚ) (c : Cell), c.cellType ≠ 0 → c.cellType ≠ 1 →
      (ContactKill.init_cell j c).growthRate = 0 ∧
      (ContactKill.init_cell j c).divideFlag = false) ∧
    (∀ (s : ℚ) (n : Nat) (cells : Pop) (k : Nat) (c : Cell),
      (cells.map Prod.fst).Nodup → (k, c) ∈ cells →
      c.cellType ≠ 0 → c.cellType ≠ 1 → c.cellType ≠ 2 →
      ((ContactKill.update s)^[n] cells).lookup k = some c) ∧
    (∀ (n : Nat) (p : DiffusionKillQS.QS × Pop) (k : Nat) (c : Cell),
      (p.2.map Prod.fst).Nodup → (k, c) ∈ p.2 →
      c.cellType ≠ DiffusionKillQS.DEAD_TYPE →
      c.cellType ≠ DiffusionKillQS.SA_TYPE →
      ¬DiffusionKillQS.producer_type c.cellType →
      (DiffusionKillQS.update_pair^[n] p).2.lookup k = some c) := by
  refine ⟨fun s cells crowd c h0 h1 h2 =>
      ContactKill.step_cell_unrecognized h0 h1 h2,
    fun qs crowd c h2 h0 hpa =>
      DiffusionKillQS.step_cell_unrecognized_QS h2 h0 hpa,
    ?_, fun s => ContactKill.unrecognized_forever s,
    DiffusionKillQS.unrecognized_forever_QS⟩
  intro j c h0 h1
  simp only [ContactKill.init_cell]
  rw [if_neg h0, if_neg h1]
  exact ⟨rfl, rfl⟩

theorem C7_failsafe_amended_witness :
    (ContactKill.step_cell 2 [] 1 ContactKill.wWeird = ContactKill.wWeird) ∧
    (DiffusionKillQS.step_cell ⟨false, false⟩ 1 ContactKill.wWeird =
      ContactKill.wWeird) ∧
    ((ContactKill.init_cell 0 ContactKill.wWeird).growthRate = 0 ∧
      (ContactKill.init_cell 0 ContactKill.wWeird).divideFlag = false) ∧
    ((ContactKill.update 2)^[4] [(0, ContactKill.wWeird)]).lookup 0 =
      some ContactKill.wWeird ∧
    (DiffusionKillQS.update_pair^[4]
        (⟨false, false⟩, [(0, ContactKill.wWeird)])).2.lookup 0 =
      some ContactKill.wWeird :=
  ⟨C7_failsafe_amended.1 2 [] 1 ContactKill.wWeird (by decide) (by decide)
     (by decide),
   C7_failsafe_amended.2.1 ⟨false, false⟩ 1 ContactKill.wWeird (by decide)
     (by decide) (by decide),
   C7_failsafe_amended.2.2.1 0 ContactKill.wWeird (by decide) (by decide),
   C7_failsafe_amended.2.2.2.1 2 4 [(0, ContactKill.wWeird)] 0
     ContactKill.wWeird (by simp) (by simp) (by decide) (by decide)
     (by decide),
   C7_failsafe_amended.2.2.2.2 4 (⟨false, false⟩, [(0, ContactKill.wWeird)])
     0 ContactKill.wWeird (by simp) (by simp) (by decide) (by decide)
     (by simp [DiffusionKillQS.producer_type, ContactKill.wWeird,
       DiffusionKillQS.PA_TYPE_ACTIVE, DiffusionKillQS.PA_TYPE_SILENT,
       DiffusionKillQS.PA_TYPE_INHIB_ONLY])⟩

namespace ContactKill

/-- Witness daughters (pre-divide records handed over by the engine)
and a dead parent. -/
def wDeadP : Cell :=
  { cellType := 2, pos := (0, 0, 0), volume := 2, targetVol := 1,
    growthRate := 5, color := (0.6, 0.6, 0.6), divideFlag := true,
    deadCounter := 7, signals := (0, 0), species := (0, 0) }

def wD1 : Cell :=
  { cellType := 0, pos := (1, 0, 0), volume := 1, targetVol := 1,
    growthRate := 1.8, color := (0, 1, 0), divideFlag := false,
    deadCounter := 0, signals := (0, 0), species := (0, 0) }

def wD2 : Cell :=
  { cellType := 0, pos := (-1, 0, 0), volume := 1, targetVol := 1,
    growthRate := 1.8, color := (0, 1, 0), divideFlag := false,
    deadCounter := 0, signals := (0, 0), species := (0, 0) }

/-- **C8 is false as stated**: `divide` contains no assert or log for a
dead parent; called on one, it returns normally and silently produces
two dead-tagged daughters whose growth rates keep whatever live
defaults the engine gave them (here 1.8). -/
theorem C8_divide_guard_counterexample :
    divide wDeadP wD1 wD2 0 0 =
      ({ wD1 with cellType := 2, divideFlag := false, deadCounter := 0 },
       { wD2 with cellType := 2, divideFlag := false, deadCounter := 0 }) ∧
    (divide wDeadP wD1 wD2 0 0).1.growthRate = 1.8 ∧
    (divide wDeadP wD1 wD2 0 0).1.cellType = 2 := by
  refine ⟨?_, rfl, rfl⟩
  simp [divide, wDeadP, wD1, wD2]

/-- **C8 (amended)**: `divide` performs no guard: on a dead parent it
silently tags both daughters with the dead type and resets their flags,
touching nothing else (growth rate, target volume and color keep their
input values); and in every case it is a total function that assigns
both daughters symmetrically — both always get the parent's `cellType`,
`divideFlag = false` and `deadCounter = 0`, so no partial update of the
pair can occur. -/
theorem C8_divide_amended :
    (∀ (parent d1 d2 : Cell) (j1 j2 : ℚ), parent.cellType = 2 →
      divide parent d1 d2 j1 j2 =
        ({ d1 with cellType := 2, divideFlag := false, deadCounter := 0 },
         { d2 with cellType := 2, divideFlag := false, deadCounter := 0 })) ∧
    (∀ (parent d1 d2 : Cell) (j1 j2 : ℚ),
      (divide parent d1 d2 j1 j2).1.cellType = parent.cellType ∧
      (divide parent d1 d2 j1 j2).2.cellType = parent.cellType ∧
      (divide parent d1 d2 j1 j2).1.divideFlag = false ∧
      (divide parent d1 d2 j1 j2).2.divideFlag = false ∧
      (divide parent d1 d2 j1 j2).1.deadCounter = 0 ∧
      (divide parent d1 d2 j1 j2).2.deadCounter = 0) := by
  constructor
  · intro parent d1 d2 j1 j2 hdead
    simp [divide, hdead]
  · intro parent d1 d2 j1 j2
    by_cases h0 : parent.cellType = 0
    · simp [divide, h0]
    · by_cases h1 : parent.cellType = 1
      · simp [divide, h0, h1]
      · simp [divide, h0, h1]

theorem C8_divide_amended_witness :
    divide wDeadP wD1 wD2 3 4 =
      ({ wD1 with cellType := 2, divideFlag := false, deadCounter := 0 },
       { wD2 with cellType := 2, divideFlag := false, deadCounter := 0 }) :=
  C8_divide_amended.1 wDeadP wD1 wD2 3 4 rfl

/-- `divide` on an SA parent, in explicit form. -/
theorem divide_sa (parent d1 d2 : Cell) (j1 j2 : ℚ)
    (h : parent.cellType = 0) :
    divide parent d1 d2 j1 j2 =
      ({ d1 with
          cellType := 0, color := COL_SA, growthRate := SA_MU,
          targetVol := DIV_LENGTH_MEAN_SA + j1,
          divideFlag := false, deadCounter := 0 },
       { d2 with
          cellType := 0, color := COL_SA, growthRate := SA_MU,
          targetVol := DIV_LENGTH_MEAN_SA + j2,
          divideFlag := false, deadCounter := 0 }) := by
  simp [divide, h]

/-- `divide` on a PA parent, in explicit form. -/
theorem divide_pa (parent d1 d2 : Cell) (j1 j2 : ℚ)
    (h : parent.cellType = 1) :
    divide parent d1 d2 j1 j2 =
      ({ d1 with
          cellType := 1, color := COL_PA, growthRate := PA_MU,
          targetVol := DIV_LENGTH_MEAN_PA + j1,
          divideFlag := false, deadCounter := 0 },
       { d2 with
          cellType := 1, color := COL_PA, growthRate := PA_MU,
          targetVol := DIV_LENGTH_MEAN_PA + j2,
          divideFlag := false, deadCounter := 0 }) := by
  simp [divide, h]

end ContactKill

/-- **C9**: For a live parent, `divide` gives both daughters the
parent's `cellType` unchanged, sets each daughter's growth rate to the
species base rate exactly, redraws each `targetVol` independently as the
species mean plus that daughter's own jitter draw (within
`[mean, mean+jitterMax]` when the draw is), and resets `divideFlag` and
`deadCounter` — in the contact script and in the QS variant for every
live parent type (SA parents get the SA base rate and mean; every
producer sub-state keeps the PA base rate and mean), and again for
daughters of daughters. -/
theorem C9_divide_defaults :
    (∀ (parent d1 d2 : Cell) (j1 j2 : ℚ), parent.cellType = 0 →
      ContactKill.divide parent d1 d2 j1 j2 =
        ({ d1 with
            cellType := 0, color := ContactKill.COL_SA,
            growthRate := ContactKill.SA_MU,
            targetVol := ContactKill.DIV_LENGTH_MEAN_SA + j1,
            divideFlag := false, deadCounter := 0 },
         { d2 with
            cellType := 0, color := ContactKill.COL_SA,
            growthRate := ContactKill.SA_MU,
            targetVol := ContactKill.DIV_LENGTH_MEAN_SA + j2,
            divideFlag := false, deadCounter := 0 })) ∧
    (∀ (parent d1 d2 : Cell) (j1 j2 : ℚ), parent.cellType = 1 →
      ContactKill.divide parent d1 d2 j1 j2 =
        ({ d1 with
            cellType := 1, color := ContactKill.COL_PA,
            growthRate := ContactKill.PA_MU,
            targetVol := ContactKill.DIV_LENGTH_MEAN_PA + j1,
            divideFlag := false, deadCounter := 0 },
         { d2 with
            cellType := 1, color := ContactKill.COL_PA,
            growthRate := ContactKill.PA_MU,
            targetVol := ContactKill.DIV_LENGTH_MEAN_PA + j2,
            divideFlag := false, deadCounter := 0 })) ∧
    (∀ (qs : DiffusionKillQS.QS) (parent d1 d2 : Cell) (j1 j2 : ℚ),
      DiffusionKillQS.producer_type parent.cellType →
      (DiffusionKillQS.divide qs parent d1 d2 j1 j2).1.cellType =
        parent.cellType ∧
      (DiffusionKillQS.divide qs parent d1 d2 j1 j2).2.cellType =
        parent.cellType ∧
      (DiffusionKillQS.divide qs parent d1 d2 j1 j2).1.growthRate =
        DiffusionKillQS.PA_MU ∧
      (DiffusionKillQS.divide qs parent d1 d2 j1 j2).2.growthRate =
        DiffusionKillQS.PA_MU ∧
      (DiffusionKillQS.divide qs parent d1 d2 j1 j2).1.targetVol =
        DiffusionKillQS.DIV_LENGTH_MEAN_PA + j1 ∧
      (DiffusionKillQS.divide qs parent d1 d2 j1 j2).2.targetVol =
        DiffusionKillQS.DIV_LENGTH_MEAN_PA + j2 ∧
      (DiffusionKillQS.divide qs parent d1 d2 j1 j2).1.divideFlag = false ∧
      (DiffusionKillQS.divide qs parent d1 d2 j1 j2).2.divideFlag = false ∧
      (DiffusionKillQS.divide qs parent d1 d2 j1 j2).1.deadCounter = 0 ∧
      (DiffusionKillQS.divide qs parent d1 d2 j1 j2).2.deadCounter = 0) ∧
    (∀ (qs : DiffusionKillQS.QS) (parent d1 d2 : Cell) (j1 j2 : ℚ),
      parent.cellType = DiffusionKillQS.SA_TYPE →
      (DiffusionKillQS.divide qs parent d1 d2 j1 j2).1.cellType =
        parent.cellType ∧
      (DiffusionKillQS.divide qs parent d1 d2 j1 j2).2.cellType =
        parent.cellType ∧
      (DiffusionKillQS.divide qs parent d1 d2 j1 j2).1.growthRate =
        DiffusionKillQS.SA_MU ∧
      (DiffusionKillQS.divide qs parent d1 d2 j1 j2).2.growthRate =
        DiffusionKillQS.SA_MU ∧
      (DiffusionKillQS.divide qs parent d1 d2 j1 j2).1.targetVol =
        DiffusionKillQS.DIV_LENGTH_MEAN_SA + j1 ∧
      (DiffusionKillQS.divide qs parent d1 d2 j1 j2).2.targetVol =
        DiffusionKillQS.DIV_LENGTH_MEAN_SA + j2 ∧
      (DiffusionKillQS.divide qs parent d1 d2 j1 j2).1.divideFlag = false ∧
      (DiffusionKillQS.divide qs parent d1 d2 j1 j2).2.divideFlag = false ∧
      (DiffusionKillQS.divide qs parent d1 d2 j1 j2).1.deadCounter = 0 ∧
      (DiffusionKillQS.divide qs parent d1 d2 j1 j2).2.deadCounter = 0) ∧
    (∀ j : ℚ, 0 ≤ j → j ≤ 0.15 →
      ContactKill.DIV_LENGTH_MEAN_SA ≤ ContactKill.DIV_LENGTH_MEAN_SA + j ∧
      ContactKill.DIV_LENGTH_MEAN_SA + j ≤
        ContactKill.DIV_LENGTH_MEAN_SA + 0.15) ∧
    (∀ (parent d1 d2 d3 d4 : Cell) (j1 j2 j3 j4 : ℚ),
      parent.cellType = 0 →
      (ContactKill.divide
        (ContactKill.divide parent d1 d2 j1 j2).1 d3 d4 j3 j4).1.growthRate =
          ContactKill.SA_MU ∧
      (ContactKill.divide
        (ContactKill.divide parent d1 d2 j1 j2).1 d3 d4 j3 j4).1.targetVol =
          ContactKill.DIV_LENGTH_MEAN_SA + j3) := by
  refine ⟨?_, ?_, ?_, ?_, ?_, ?_⟩
  · intro parent d1 d2 j1 j2 h
    exact ContactKill.divide_sa parent d1 d2 j1 j2 h
  · intro parent d1 d2 j1 j2 h
    exact ContactKill.divide_pa parent d1 d2 j1 j2 h
  · intro qs parent d1 d2 j1 j2 hpa
    rcases hpa with h | h | h <;>
      simp [DiffusionKillQS.divide, h, DiffusionKillQS.SA_TYPE,
        DiffusionKillQS.PA_TYPE_ACTIVE, DiffusionKillQS.PA_TYPE_SILENT,
        DiffusionKillQS.PA_TYPE_INHIB_ONLY]
  · intro qs parent d1 d2 j1 j2 h
    simp [DiffusionKillQS.divide, h, DiffusionKillQS.SA_TYPE]
  · intro j h0 h1
    constructor <;> linarith
  · intro parent d1 d2 d3 d4 j1 j2 j3 j4 h
    rw [ContactKill.divide_sa parent d1 d2 j1 j2 h,
      ContactKill.divide_sa _ d3 d4 j3 j4 rfl]
    exact ⟨rfl, rfl⟩

theorem C9_divide_defaults_witness :
    ContactKill.divide ContactKill.wSA ContactKill.wD1 ContactKill.wD2
        (0.1) (0.05) =
      ({ ContactKill.wD1 with
          cellType := 0, color := ContactKill.COL_SA,
          growthRate := ContactKill.SA_MU,
          targetVol := ContactKill.DIV_LENGTH_MEAN_SA + 0.1,
          divideFlag := false, deadCounter := 0 },
       { ContactKill.wD2 with
          cellType := 0, color := ContactKill.COL_SA,
          growthRate := ContactKill.SA_MU,
          targetVol := ContactKill.DIV_LENGTH_MEAN_SA + 0.05,
          divideFlag := false, deadCounter := 0 }) :=
  C9_divide_defaults.1 ContactKill.wSA ContactKill.wD1 ContactKill.wD2
    0.1 0.05 rfl
